import Mathlib

/-
Verification of the dnnviewer bridge and widget layer.

Shallow embedding of:
  src/dnnviewer/bridge/KerasNetworkExtractor.py
  src/dnnviewer/bridge/KerasModelSequence.py
  src/dnnviewer/widgets/property_list.py

Python conventions modelled explicitly:
  - fallible operations (list indexing, dict subscription, attribute access,
    int() parsing, raised exceptions) return `Except PyErr`;
  - Python `dict` objects are association lists with insertion order and
    replace-in-place assignment semantics;
  - numpy float arrays appearing in display properties are modelled as `ℚ`
    (the code performs no arithmetic on them beyond elementwise division);
  - framework (Keras/TensorFlow) objects are structures carrying exactly the
    fields and attributes the source reads.
-/

set_option autoImplicit false

namespace DnnViewer

/-- Python exception signals raised (or caught) by the embedded code.  `modelError` is the
application-specific `ModelError` defined in `dnnviewer.bridge`; the others are builtin
Python exception classes. -/
inductive PyErr where
  | modelError (msg : String)
  | indexError
  | keyError (k : String)
  | valueError
  | typeError
  | attributeError
deriving DecidableEq, Repr

/-- Weight tensor: a shape together with an opaque payload standing for the numeric entries.
`numpy()` copies a tensor by value, which is identity on this representation. -/
structure Tensor where
  shape : List Int
  payload : List Int
deriving DecidableEq, Repr

/-- Values of Keras layer attributes and `get_config()` entries, as far as the source reads
them: strings, ints, floats (as `ℚ`), booleans, int tuples, dicts (string keys, possibly
`None` values) and attribute-bearing objects such as regularizers. -/
inductive AttrVal where
  | str (s : String)
  | int (n : Int)
  | flt (q : ℚ)
  | boolV (b : Bool)
  | tuple (xs : List Int)
  | dict (fields : List (String × Option AttrVal))
  | obj (fields : List (String × Option AttrVal))

/-- Display property values stored into the UI layer property dictionaries.  The Python code
stores formatted strings ("%s"-interpolation); this embedding keeps the formatted data
structurally. -/
inductive PVal where
  | str (s : String)
  | shape (dims : List Int)
  | flatShape (dims : List Int)
  | pooling (size : List ℚ)
  | dropoutP (caption : String) (rate : AttrVal)
  | regL1 (v : AttrVal)
  | regL2 (v : AttrVal)
  | regL1L2 (a b : AttrVal)
  | caption (c : String)
  | av (a : AttrVal)

/-- Modelled from the spec: the theme object passed around for rendering; the extractor only
forwards it to layer constructors, so it is opaque here. -/
structure Theme where
  tag : Nat
deriving DecidableEq, Repr

/-- Kind tag distinguishing the UI-side layer classes Input, Dense and Convo2D. -/
inductive UIKind where
  | input
  | dense
  | convo2d
deriving DecidableEq, Repr

/-- Modelled from the spec: the UI-side layer classes (`dnnviewer.layers.Input`, `.Dense`,
`.Convo2D`, not under src/) hold copied-out weight arrays, display captions and shape
metadata for rendering.  One structure with a kind tag models the three classes; fields
cover exactly what the extractor writes: the constructor arguments, the four property
dictionaries, bias, sampling factors, the flatten flag and unit names. -/
structure UILayer where
  kind : UIKind
  name : String
  numUnit : Int
  weights : Option Tensor
  grads : Option Tensor
  theme : Theme
  inputProps : List (String × PVal)
  outputProps : List (String × PVal)
  structureProps : List (String × PVal)
  trainingProps : List (String × PVal)
  bias : Option Tensor
  samplingFactors : List (List ℚ)
  flattenOutput : Bool
  unitNames : Option (List String)

/-- Modelled from the spec: constructor of the Input UI layer class (`Input(name, num_unit,
theme, unit_names)`); stores its arguments, all other fields empty. -/
def Input (name : String) (numUnit : Int) (theme : Theme)
    (unitNames : Option (List String)) : UILayer :=
  { kind := UIKind.input, name := name, numUnit := numUnit, weights := none, grads := none,
    theme := theme, inputProps := [], outputProps := [], structureProps := [],
    trainingProps := [], bias := none, samplingFactors := [], flattenOutput := false,
    unitNames := unitNames }

/-- Modelled from the spec: constructor of the Dense UI layer class (`Dense(name, num_unit,
weights, grads, theme)`); stores its arguments, all other fields empty. -/
def Dense (name : String) (numUnit : Int) (weights : Tensor) (grads : Option Tensor)
    (theme : Theme) : UILayer :=
  { kind := UIKind.dense, name := name, numUnit := numUnit, weights := some weights,
    grads := grads, theme := theme, inputProps := [], outputProps := [], structureProps := [],
    trainingProps := [], bias := none, samplingFactors := [], flattenOutput := false,
    unitNames := none }

/-- Modelled from the spec: constructor of the Convo2D UI layer class (`Convo2D(name,
num_unit, weights, grads, theme)`); stores its arguments, all other fields empty. -/
def Convo2D (name : String) (numUnit : Int) (weights : Tensor) (grads : Option Tensor)
    (theme : Theme) : UILayer :=
  { kind := UIKind.convo2d, name := name, numUnit := numUnit, weights := some weights,
    grads := grads, theme := theme, inputProps := [], outputProps := [], structureProps := [],
    trainingProps := [], bias := none, samplingFactors := [], flattenOutput := false,
    unitNames := none }

/-- Modelled from the spec: the grapher (`dnnviewer.Grapher`, not under src/) is a mutable
container of the currently displayed layer list, plus the theme and the top-level model
properties set by `keras_set_model_properties`. -/
structure Grapher where
  layers : List UILayer
  theme : Theme
  modelProps : List (String × PVal)

/-- Modelled from the spec: `Grapher.reset` clears the displayed layer list (the grapher is
"rebuilt in place on every model/epoch switch"). -/
def Grapher.reset (g : Grapher) : Grapher :=
  { g with layers := [] }

/-- Modelled from the spec: `Grapher.add_layer` appends a layer object to the displayed
layer list. -/
def Grapher.add_layer (g : Grapher) (l : UILayer) : Grapher :=
  { g with layers := g.layers ++ [l] }

/-- Modelled from the spec: test data holder (`dnnviewer.TestData` / `dataset.DataSet`, not
under src/) with the fields the embedded code reads: availability of a test sample, input
and output class names, and the formatted input slot written by `format_test_data`. -/
structure TestData where
  hasTestSample : Bool
  inputClasses : Option (List String)
  outputClasses : Option (List String)
  xFormat : Option Nat

/-- Keras layer object, carrying exactly what the extractor reads: the class name
(dispatch key), the layer name, the `weights` and `trainable_weights` tensor lists, input
and output shapes (Python tuples whose leading batch dimension the code slices off), the
plain attribute map (`getattr` view, `none` meaning `AttributeError`, `some none` meaning
an attribute holding Python `None`), the `get_config()` dictionary, and the `bias`
attribute of Dense/Conv2D layers. -/
structure KerasLayer where
  className : String
  name : String
  weights : List Tensor
  trainableWeights : List Tensor
  inputShape : List Int
  outputShape : List Int
  attrs : List (String × Option AttrVal)
  config : List (String × Option AttrVal)
  bias : Option Tensor

/-- Keras model object: Sequential flag (for the isinstance check), layer list, model name,
and the input dtype/shape read by `get_input_geometry`. -/
structure KerasModel where
  isSequential : Bool
  name : String
  layers : List KerasLayer
  inputDtype : String
  inputShape : List Int

/-- Python list indexing `xs[i]` with negative-index wrap-around; out of range raises
`IndexError`. -/
def pyIdx {α : Type} (xs : List α) (i : Int) : Except PyErr α :=
  let j := if i < 0 then i + xs.length else i
  if h : 0 ≤ j ∧ j.toNat < xs.length then Except.ok (xs.get ⟨j.toNat, h.2⟩)
  else Except.error PyErr.indexError

/-- Python dict assignment `d[k] = v`: replace in place when the key exists, append
otherwise (insertion order preserved). -/
def dictSet {κ α : Type} [DecidableEq κ] (d : List (κ × α)) (k : κ) (v : α) :
    List (κ × α) :=
  if d.any (fun kv => kv.1 = k) then d.map (fun kv => if kv.1 = k then (k, v) else kv)
  else d ++ [(k, v)]

/-- Python `d.update(src)`: assign every entry of `src` into `d` in order. -/
def dictUpdate {κ α : Type} [DecidableEq κ] (d src : List (κ × α)) : List (κ × α) :=
  src.foldl (fun acc kv => dictSet acc kv.1 kv.2) d

/-- Python truthiness of an attribute value (`None`, `0`, `0.0`, `""`, `()` and empty
dicts are falsy). -/
def pyTruthy : Option AttrVal → Bool
  | none => false
  | some (AttrVal.str s) => !s.isEmpty
  | some (AttrVal.int n) => decide (n ≠ 0)
  | some (AttrVal.flt q) => decide (q ≠ 0)
  | some (AttrVal.boolV b) => b
  | some (AttrVal.tuple xs) => !xs.isEmpty
  | some (AttrVal.dict f) => !f.isEmpty
  | some (AttrVal.obj _) => true

/-- Mutation through the `previous_layer` alias.  In `process`, `previous_layer` is `None`
until the first `add_layer` and afterwards always aliases the most recently appended layer,
so in-place mutations of `previous_layer` rewrite the last element of the layer
list of the grapher. -/
def modifyLast (g : Grapher) (f : UILayer → UILayer) : Grapher :=
  match g.layers.getLast? with
  | none => g
  | some l => { g with layers := g.layers.dropLast ++ [f l] }

/-- Python `getattr(value, sa)` on an attribute value: fields of objects; anything else
raises `AttributeError` (returned as `none`, the callers catch it). -/
def getAttrOfVal (v : AttrVal) (sa : String) : Option (Option AttrVal) :=
  match v with
  | AttrVal.obj fields => List.lookup sa fields
  | _ => none

/-- Sub-attribute collection in the first block of `_get_keras_layer_attribute`: for each
requested sub-attribute, `getattr(value, sa)` with `AttributeError` caught and skipped. -/
def collectSub (v : AttrVal) (sas : List String) : List (String × Option AttrVal) :=
  sas.filterMap (fun sa => (getAttrOfVal v sa).map (fun x => (sa, x)))

/-- Python subscription `value[sa]` as used by the second block of `_get_keras_layer_attribute`:
dict lookup raising `KeyError` when absent; subscripting a non-dict raises `TypeError`
(only `AttributeError` is caught there, so both propagate). -/
def pySubscript (v : AttrVal) (k : String) : Except PyErr (Option AttrVal) :=
  match v with
  | AttrVal.dict fields =>
    match List.lookup k fields with
    | some x => Except.ok x
    | none => Except.error (PyErr.keyError k)
  | _ => Except.error PyErr.typeError

/-- Safe attribute getter `KerasNetworkExtractor._get_keras_layer_attribute`.  Reads the
attribute (catching `AttributeError`); with `sub_attr` set and a value found it returns the
dictionary of found sub-attributes; otherwise, with `look_in_config` set, it falls back to
(and overrides from) the layer config when the config entry is a dict carrying a `config`
key or a plain str/int/float; a config-derived value with `sub_attr` set is subscripted
(which may raise). -/
def getKerasLayerAttribute (kl : KerasLayer) (attrName : String)
    (subAttr : Option (List String)) (lookInConfig : Bool) :
    Except PyErr (Option AttrVal) :=
  let value0 : Option AttrVal :=
    match List.lookup attrName kl.attrs with
    | none => none
    | some v => v
  match value0, subAttr with
  | some v, some sas => Except.ok (some (AttrVal.dict (collectSub v sas)))
  | _, _ =>
    let value1 : Option AttrVal :=
      if lookInConfig then
        match List.lookup attrName kl.config with
        | some (some (AttrVal.dict fields)) =>
          match List.lookup "config" fields with
          | some inner => inner
          | none => value0
        | some (some (AttrVal.str s)) => some (AttrVal.str s)
        | some (some (AttrVal.int n)) => some (AttrVal.int n)
        | some (some (AttrVal.flt q)) => some (AttrVal.flt q)
        | _ => value0
      else value0
    match value1, subAttr with
    | some v, some sas => do
      let pairs ← sas.mapM (fun sa => (pySubscript v sa).map (fun x => (sa, x)))
      Except.ok (some (AttrVal.dict pairs))
    | _, _ => Except.ok value1

/-- Modelled from the spec: `get_caption` (in `bridge/tensorflow.py`, not under src/) maps a
framework activation object or name to a display caption through the caption table. -/
def get_caption (a : Option AttrVal) (captions : List (String × String)) : String :=
  match a with
  | some (AttrVal.str s) => (List.lookup s captions).getD s
  | _ => ""

/-- Layer class names treated as pooling layers (`_pooling_layers`). -/
def poolingLayers : List String :=
  ["MaxPooling1D", "MaxPooling2D", "MaxPooling3D",
   "AveragePooling1D", "AveragePooling2D", "AveragePooling3D",
   "GlobalAveragePooling1D", "GlobalAveragePooling2D", "GlobalAveragePooling3D",
   "GlobalMaxPooling1D", "GlobalMaxPooling2D", "GlobalMaxPooling3D"]

/-- Pooling captions table (`_pooling_captions`). -/
def poolingCaptions : List (String × String) :=
  [("MaxPooling1D", "Max 1D"), ("MaxPooling2D", "Max 2D"), ("MaxPooling3D", "Max 3D"),
   ("AveragePooling1D", "Average 1D"), ("AveragePooling2D", "Average 2D"),
   ("AveragePooling3D", "Average 3D"),
   ("GlobalAveragePooling1D", "Global average 1D"),
   ("GlobalAveragePooling2D", "Global average 2D"),
   ("GlobalAveragePooling3D", "Global average 3D"),
   ("GlobalMaxPooling1D", "Global max 1D"), ("GlobalMaxPooling2D", "Global max 2D"),
   ("GlobalMaxPooling3D", "Global max 3D")]

/-- Dropout layer class names (`_dropout_layers`). -/
def dropoutLayers : List String :=
  ["Dropout", "SpatialDropout1D", "SpatialDropout2D", "SpatialDropout3D"]

/-- Dropout captions table (`_dropout_captions`). -/
def dropoutCaptions : List (String × String) :=
  [("Dropout", "Standard"), ("SpatialDropout1D", "Spatial 1D"),
   ("SpatialDropout2D", "Spatial 2D"), ("SpatialDropout3D", "Spatial 3D")]

/-- Ignored layer class names (`_keras_ignored_layers`). -/
def ignoredLayers : List String :=
  ["ActivityRegularization"]

/-- Activation captions table (`_activation_captions`). -/
def activationCaptions : List (String × String) :=
  [("elu", "Exponential linear unit"), ("exponential", "Exponential"),
   ("hard_sigmoid", "Hard sigmoid"), ("linear", "Linear"),
   ("relu", "Rectified linear unit"), ("selu", "Scaled Exponential Linear Unit (SELU)"),
   ("sigmoid", "Sigmoid"), ("softmax", "Soft-max"), ("softplus", "Soft-plus"),
   ("softsign", "Soft-sign"), ("swish", "Swish"), ("tanh", "Hyperbolic tangent")]

/-- State threaded through the layer loop of `process`: the grapher, the gradient cursor
`idx_grads`, and the two property dictionaries handed from one layer to the next. -/
structure ExtractState where
  grapher : Grapher
  idxGrads : Nat
  layerTrainingProps : List (String × PVal)
  layerInputProps : List (String × PVal)

/-- Gradient argument of the Dense/Convo2D constructors:
`grads[idx_grads].numpy() if grads else None` (an empty gradient list is falsy). -/
def gradArg (grads : Option (List Tensor)) (idx : Nat) : Except PyErr (Option Tensor) :=
  match grads with
  | none => Except.ok none
  | some gs =>
    if gs.isEmpty then Except.ok none
    else (pyIdx gs (Int.ofNat idx)).map some

/-- Regularizer caption value computed by `_process_add_layer` for one regularizer
attribute: read the `l1`/`l2` sub-attributes, then format the L1/L2/L1-L2 caption
according to their truthiness (both keys are subscripted, so a missing key raises). -/
def regValue (kl : KerasLayer) (regAttr : String) : Except PyErr (Option PVal) := do
  let reg ← getKerasLayerAttribute kl regAttr (some ["l1", "l2"]) true
  match reg with
  | none => Except.ok none
  | some r => do
    let l1 ← pySubscript r "l1"
    if pyTruthy l1 then do
      let l2 ← pySubscript r "l2"
      if pyTruthy l2 then
        Except.ok (some (PVal.regL1L2 (l1.getD (AttrVal.str "")) (l2.getD (AttrVal.str ""))))
      else Except.ok (some (PVal.regL1 (l1.getD (AttrVal.str ""))))
    else do
      let l2 ← pySubscript r "l2"
      if pyTruthy l2 then Except.ok (some (PVal.regL2 (l2.getD (AttrVal.str ""))))
      else Except.ok none

/-- One step of the regularizer loop in `_process_add_layer`: set the caption into the
training properties of the layer when a value was produced. -/
def stepReg (kl : KerasLayer) (l : UILayer) (regAttr : String) : Except PyErr UILayer :=
  (regValue kl regAttr).map (fun v =>
    match v with
    | some pv => { l with trainingProps := dictSet l.trainingProps regAttr pv }
    | none => l)

/-- Bias step of `_process_add_layer`: `layer.bias = keras_layer.bias.numpy()` when
`use_bias` is absent or truthy and the `bias` attribute is not `None`. -/
def applyBias (kl : KerasLayer) (l : UILayer) : UILayer :=
  let useBias : Bool :=
    match List.lookup "use_bias" kl.attrs with
    | none => true
    | some v => pyTruthy v
  if useBias && kl.bias.isSome then { l with bias := kl.bias } else l

/-- Activation step of `_process_add_layer`: record the activation caption when the
activation attribute resolved to a value. -/
def applyActivationCaption (act : Option AttrVal) (l : UILayer) : UILayer :=
  match act with
  | some _ => { l with structureProps := (dictSet l.structureProps "activation"
                  (PVal.caption (get_caption act activationCaptions))) }
  | none => l

/-- Decoration part of `KerasNetworkExtractor._process_add_layer`: update the carried-over
training and input properties, set input/output shape properties, add regularizer captions,
bias and activation caption onto the freshly built UI layer. -/
def decorateLayer (layer0 : UILayer) (kl : KerasLayer)
    (ltp lip : List (String × PVal)) : Except PyErr UILayer := do
  let layer := { layer0 with trainingProps := dictUpdate layer0.trainingProps ltp,
                             inputProps := dictUpdate layer0.inputProps lip }
  let layer := { layer with
                   inputProps := (dictSet layer.inputProps "shape"
                     (PVal.shape (kl.inputShape.drop 1))),
                   outputProps := (dictSet layer.outputProps "shape"
                     (PVal.shape (kl.outputShape.drop 1))) }
  let layer ← List.foldlM (stepReg kl) layer
    ["activity_regularizer", "bias_regularizer", "kernel_regularizer"]
  let layer := applyBias kl layer
  let act ← getKerasLayerAttribute kl "activation" none true
  Except.ok (applyActivationCaption act layer)

/-- The method `KerasNetworkExtractor._process_add_layer`: decorate the layer and append it
to the grapher. -/
def processAddLayer (g : Grapher) (layer0 : UILayer) (kl : KerasLayer)
    (ltp lip : List (String × PVal)) : Except PyErr Grapher := do
  let layer ← decorateLayer layer0 kl ltp lip
  Except.ok (Grapher.add_layer g layer)

/-- Python inequality `keras_layer.strides != (1, 1)` on the raw attribute value. -/
def neTuple11 : Option AttrVal → Bool
  | some (AttrVal.tuple xs) => decide (xs ≠ [1, 1])
  | _ => true

/-- Direct attribute access `keras_layer.attr` (raises `AttributeError` when absent). -/
def pyGetAttr (kl : KerasLayer) (attr : String) : Except PyErr (Option AttrVal) :=
  match List.lookup attr kl.attrs with
  | some v => Except.ok v
  | none => Except.error PyErr.attributeError

/-- Subscription `strides[i]` on the fetched attribute value: tuple indexing; subscripting
a non-tuple (e.g. an int) raises `TypeError`. -/
def attrTupleIdx (v : Option AttrVal) (i : Int) : Except PyErr Int :=
  match v with
  | some (AttrVal.tuple xs) => pyIdx xs i
  | _ => Except.error PyErr.typeError

/-- Extra Conv2D properties set after `_process_add_layer` in `process`: strides (when
truthy and different from `(1, 1)`) are recorded as a structure property with a sampling
factor, and a truthy padding attribute is recorded as a structure property.  The layer
object was just appended, so the in-place mutations rewrite the last layer of the grapher. -/
def convoExtraProps (g : Grapher) (kl : KerasLayer) : Except PyErr Grapher := do
  let strides ← getKerasLayerAttribute kl "strides" none false
  let g ← (if pyTruthy strides then do
      let sv ← pyGetAttr kl "strides"
      if neTuple11 sv then do
        let s0 ← attrTupleIdx strides 0
        let s1 ← attrTupleIdx strides 1
        Except.ok (modifyLast g (fun l =>
          { l with
              structureProps := (dictSet l.structureProps "strides"
                (PVal.av (sv.getD (AttrVal.str "")))),
              samplingFactors := l.samplingFactors ++ [[(s0 : ℚ), (s1 : ℚ), 1, 1]] }))
      else Except.ok g
    else Except.ok g)
  let padding ← getKerasLayerAttribute kl "padding" none false
  if pyTruthy padding then
    Except.ok (modifyLast g (fun l =>
      { l with structureProps := (dictSet l.structureProps "padding"
          (PVal.av (padding.getD (AttrVal.str "")))) }))
  else Except.ok g

/-- One iteration of the layer loop in `KerasNetworkExtractor.process`, up to the three
trailing common statements: dispatch on the layer class name, returning the updated grapher
together with the `next_layer_training_props` and `next_layer_input_props` produced by this
layer.  Branch order follows the source: Dense, Conv2D, Flatten, pooling, Activation,
dropout, BatchNormalization, ignored, unhandled. -/
def dispatchLayer (td : TestData) (grads : Option (List Tensor)) (st : ExtractState)
    (kl : KerasLayer) :
    Except PyErr (Grapher × List (String × PVal) × List (String × PVal)) :=
  let g := st.grapher
  if kl.className = "Dense" then do
    let units ← pyIdx kl.outputShape (-1)
    let w ← pyIdx kl.weights 0
    let gr ← gradArg grads st.idxGrads
    let layer := Dense kl.name units w gr g.theme
    let g2 ← processAddLayer g layer kl st.layerTrainingProps st.layerInputProps
    Except.ok (g2, [], [])
  else if kl.className = "Conv2D" then do
    let units ← pyIdx kl.outputShape (-1)
    let w ← pyIdx kl.weights 0
    let gr ← gradArg grads st.idxGrads
    let layer := Convo2D kl.name units w gr g.theme
    let g2 ← processAddLayer g layer kl st.layerTrainingProps st.layerInputProps
    let g3 ← convoExtraProps g2 kl
    Except.ok (g3, [], [])
  else if kl.className = "Flatten" then
    match g.layers.getLast? with
    | some last =>
      if last.kind = UIKind.convo2d then
        Except.ok (modifyLast g (fun l =>
          { l with flattenOutput := true,
                   outputProps := (dictSet l.outputProps "shape"
                     (PVal.flatShape (kl.outputShape.drop 1))) }), [], [])
      else Except.ok (g, [], [])
    | none => do
      let units ← pyIdx kl.outputShape (-1)
      let layer := Input "input" units g.theme td.inputClasses
      let layer := { layer with outputProps := (dictSet layer.outputProps "shape"
                       (PVal.shape (kl.outputShape.drop 1))) }
      Except.ok (Grapher.add_layer g layer, [], [])
  else if poolingLayers.contains kl.className then
    if (List.lookup kl.className poolingCaptions).isSome then do
      let ps ← getKerasLayerAttribute kl "pool_size" none false
      let poolSize ← (match ps with
        | none =>
          let a := (kl.inputShape.drop 1).dropLast
          let b := (kl.outputShape.drop 1).dropLast
          if a.length = b.length then
            Except.ok (List.zipWith (fun x y => (x : ℚ) / (y : ℚ)) a b)
          else Except.error PyErr.valueError
        | some (AttrVal.tuple xs) => Except.ok (xs.map (fun n => (n : ℚ)))
        | some (AttrVal.int n) => Except.ok [(n : ℚ)]
        | some _ => Except.error PyErr.typeError)
      match g.layers.getLast? with
      | none => Except.error PyErr.attributeError
      | some _ =>
        Except.ok (modifyLast g (fun l =>
          { l with
              outputProps := (dictSet (dictSet l.outputProps "pooling"
                (PVal.pooling poolSize)) "shape" (PVal.shape (kl.outputShape.drop 1))),
              samplingFactors := l.samplingFactors ++ [poolSize.map (fun q => 1 / q)] }),
          [], [])
    else Except.ok (g, [], [])
  else if kl.className = "Activation" then
    match g.layers.getLast? with
    | some _ => do
      let act ← getKerasLayerAttribute kl "activation" none true
      Except.ok (modifyLast g (fun l =>
        { l with structureProps := (dictSet l.structureProps "activation"
            (PVal.caption (get_caption act activationCaptions))) }), [], [])
    | none => Except.ok (g, [], [])
  else if dropoutLayers.contains kl.className then
    match List.lookup kl.className dropoutCaptions with
    | some cap => do
      let rate ← getKerasLayerAttribute kl "rate" none true
      let rateV := match rate with
        | none => AttrVal.str "-"
        | some v => v
      Except.ok (g, [("dropout", PVal.dropoutP cap rateV)], [])
    | none => Except.ok (g, [], [])
  else if kl.className = "BatchNormalization" then
    Except.ok (g, [], [("batch_normalization", PVal.str "Enabled")])
  else
    Except.ok (g, [], [])

/-- One full iteration of the layer loop: dispatch, then advance the gradient cursor by
`len(keras_layer.trainable_weights)` and shift the property dictionaries. -/
def processLayer (td : TestData) (grads : Option (List Tensor)) (st : ExtractState)
    (kl : KerasLayer) : Except PyErr ExtractState := do
  let r ← dispatchLayer td grads st kl
  Except.ok { grapher := r.1, idxGrads := st.idxGrads + kl.trainableWeights.length,
              layerTrainingProps := r.2.1, layerInputProps := r.2.2 }

/-- The layer loop `for keras_layer in self.model.layers` of `process`. -/
def runLayers (td : TestData) (grads : Option (List Tensor)) :
    ExtractState → List KerasLayer → Except PyErr ExtractState
  | st, [] => Except.ok st
  | st, kl :: rest => do
    let st2 ← processLayer td grads st kl
    runLayers td grads st2 rest

/-- The method `KerasNetworkExtractor.compute_gradients`, with the TensorFlow gradient-tape
computation abstracted as `tapeResult` (the body of the `with tf.GradientTape()` block,
whose exceptions are all raised inside the `try`): no test sample gives `None`, and any
exception is caught, logged, and turned into `None`. -/
def compute_gradients (hasTestSample : Bool) (tapeResult : Except String (List Tensor)) :
    Option (List Tensor) :=
  if hasTestSample then
    match tapeResult with
    | Except.ok gs => some gs
    | Except.error _ => none
  else none

/-- The method `KerasNetworkExtractor.process`: reject non-Sequential models, return
early (before `grapher.reset`) on models with no layer, otherwise reset the grapher,
compute gradients, add an input placeholder when the first layer carries weights, walk the
layers, and finally set the output class names on the last built layer. -/
def process (g : Grapher) (m : KerasModel) (td : TestData)
    (tapeResult : Except String (List Tensor)) : Except PyErr Grapher :=
  if m.isSequential = true then
    match m.layers with
    | [] => Except.ok g
    | kl0 :: _ => do
      let g := Grapher.reset g
      let grads := compute_gradients td.hasTestSample tapeResult
      let g ← (if kl0.weights.length > 0 then do
          let w0 ← pyIdx kl0.weights 0
          let inputDim ← pyIdx w0.shape (-2)
          let il := Input "input" inputDim g.theme td.inputClasses
          let il := { il with outputProps := (dictSet il.outputProps "shape"
                        (PVal.shape (kl0.inputShape.drop 1))) }
          Except.ok (Grapher.add_layer g il)
        else Except.ok g)
      let stF ← runLayers td grads
        { grapher := g, idxGrads := 0, layerTrainingProps := [], layerInputProps := [] }
        m.layers
      match td.outputClasses with
      | some names => do
        let _ ← pyIdx stF.grapher.layers (-1)
        Except.ok (modifyLast stF.grapher (fun l => { l with unitNames := some names }))
      | none => Except.ok stF.grapher
  else Except.error (PyErr.modelError "Unexpected model type, expecting Sequential model")

/-- Fuel-driven core of the glob matcher: `*` matches any run of non-separator characters,
the class `[0-9]` matches one digit, everything else is literal.  Each step shrinks
`pattern.length + path.length`, so `fuel = pattern.length + path.length + 1` is enough. -/
def globMatchGo : Nat → List Char → List Char → Bool
  | 0, _, _ => false
  | fuel + 1, pat, s =>
    match pat, s with
    | [], [] => true
    | [], _ :: _ => false
    | '*' :: ps, s =>
      globMatchGo fuel ps s ||
        (match s with
         | [] => false
         | c :: cs => decide (c ≠ '/') && globMatchGo fuel ('*' :: ps) cs)
    | '[' :: '0' :: '-' :: '9' :: ']' :: ps, s =>
      (match s with
       | c :: cs => c.isDigit && globMatchGo fuel ps cs
       | [] => false)
    | c :: ps, s =>
      (match s with
       | d :: ds => decide (c = d) && globMatchGo fuel ps ds
       | [] => false)

/-- Matching of `glob.glob` patterns against an existing path, for the patterns the source
builds (literal directory text plus `*` and `[0-9]`). -/
def globMatch (pat path : String) : Bool :=
  globMatchGo (pat.data.length + path.data.length + 1) pat.data path.data

/-- Attempted match of the regex `pre([0-9]*)suf` at the start of `s` (with `pre` and `suf`
literal): `pre` must be a prefix, then the greedy digit capture backtracks from the longest
digit run down to the empty capture until `suf` matches; returns the captured digits. -/
def matchDigitsAt (pre suf s : List Char) : Option (List Char) :=
  if pre.isPrefixOf s then
    let rest := s.drop pre.length
    let run := rest.takeWhile Char.isDigit
    match (List.range (run.length + 1)).reverse.find?
        (fun k => suf.isPrefixOf (rest.drop k)) with
    | some k => some (rest.take k)
    | none => none
  else none

/-- Semantics of `re.search` for the pattern built by replacing the epoch tag of `dir_path` with the digit capture group
(with the surrounding text free of regex metacharacters): leftmost position first, greedy
capture, returning capture group 1. -/
def reSearchDigits (pre suf : List Char) (s : List Char) : Option (List Char) :=
  (List.range (s.length + 1)).findSome? (fun i => matchDigitsAt pre suf (s.drop i))

/-- Python `\w` word characters. -/
def isWordChar (c : Char) : Bool :=
  c.isAlphanum || c = '_'

/-- Attempted match of the regex `a(\w+)b([0-9]+)c` at the start of `s` (with `a`, `b`,
`c` literal): greedy backtracking word capture, literal `b`, greedy backtracking digit
group, literal `c`; returns capture group 1. -/
def matchMWAt (a b c s : List Char) : Option (List Char) :=
  if a.isPrefixOf s then
    let rest := s.drop a.length
    let wrun := rest.takeWhile isWordChar
    (List.range wrun.length).reverse.findSome? (fun k1 =>
      let k := k1 + 1
      let rest2 := rest.drop k
      if b.isPrefixOf rest2 then
        let rest3 := rest2.drop b.length
        let drun := rest3.takeWhile Char.isDigit
        (List.range drun.length).reverse.findSome? (fun j1 =>
          if c.isPrefixOf (rest3.drop (j1 + 1)) then some (rest.take k) else none)
      else none)
  else none

/-- Semantics of `re.search` for `model_sequence_pattern` with `{model}` replaced by
`(\w+)` and `{epoch}` by `([0-9]+)`, returning capture group 1 (the model name). -/
def reSearchMW (a b c : List Char) (s : List Char) : Option (List Char) :=
  (List.range (s.length + 1)).findSome? (fun i => matchMWAt a b c (s.drop i))

/-- Python `int(text)` on a regex capture of `[0-9]*`: parses a non-empty digit string,
raises `ValueError` on the empty capture. -/
def pyInt (cs : List Char) : Except PyErr Nat :=
  if !cs.isEmpty && cs.all Char.isDigit then
    Except.ok (cs.foldl (fun acc c => acc * 10 + (c.toNat - 48)) 0)
  else Except.error PyErr.valueError

/-- The literal checkpoint-pattern tag text. -/
def epochTag : String :=
  "\x7bepoch\x7d"

/-- Sequence of Keras models (`KerasModelSequence`), including the base-class fields.
Modelled from the spec where the base class is concerned: `AbstractModelSequence` (not
under src/) holds the title, the number of epochs and the current epoch index used by the
epoch-navigation UI. -/
structure KerasModelSequence where
  title : String
  numberEpochs : Nat
  currentEpochIndex : Nat
  modelPaths : List String
  currentModel : Option KerasModel
  testData : TestData

/-- The method `KerasModelSequence.reset`: the base-class reset (modelled from the spec:
discard-on-reset of the navigation state) followed by clearing the model paths and the
current model. -/
def KerasModelSequence.reset (s : KerasModelSequence) : KerasModelSequence :=
  let s := { s with title := "", numberEpochs := 0, currentEpochIndex := 0 }
  { s with modelPaths := [], currentModel := none }

/-- The method `KerasModelSequence.load_single`: reset, then register the single model
file. -/
def KerasModelSequence.load_single (s : KerasModelSequence) (filePath : String) :
    KerasModelSequence :=
  let s := s.reset
  { s with title := filePath, numberEpochs := 1, modelPaths := [filePath] }

/-- One entry of the dict comprehension of `load_sequence`: map a globbed checkpoint path
to its epoch number extracted by `re.search(...).group(1)` (raising `AttributeError` when
the search fails and `ValueError` on an empty capture) and assign it into the dict (later
duplicate epochs overriding earlier ones, as in a Python dict). -/
def checkpointStep (pre suf : List Char) (d : List (Nat × String)) (p : String) :
    Except PyErr (List (Nat × String)) := do
  let grp ← (match reSearchDigits pre suf p.data with
             | some ds => Except.ok ds
             | none => Except.error PyErr.attributeError)
  let n ← pyInt grp
  Except.ok (dictSet d n p)

/-- The dict comprehension of `load_sequence` over all globbed checkpoint paths. -/
def buildCheckpoints (pre suf : List Char) (paths : List String) :
    Except PyErr (List (Nat × String)) :=
  paths.foldlM (checkpointStep pre suf) []

/-- The glob over the existing files for `dir_path` with the epoch tag replaced by `[0-9]*`, matched against
`fs`, for a pattern `pre ++ "{epoch}" ++ suf`. -/
def checkpointGlobMatches (fs : List String) (pre suf : List Char) : List String :=
  fs.filter (fun p =>
    globMatchGo (pre.length + "[0-9]*".data.length + suf.length + p.data.length + 1)
      (pre ++ "[0-9]*".data ++ suf) p.data)

/-- The method `KerasModelSequence.load_sequence` for a directory pattern
`pre ++ "{epoch}" ++ suf` (the tag occurring once): reset, set the title to the pattern,
glob the checkpoints with `{epoch}` replaced by `[0-9]*` over the existing files `fs`,
extract each epoch by regex, and store the paths keyed by ascending epoch number. -/
def KerasModelSequence.load_sequence (fs : List String) (s : KerasModelSequence)
    (pre suf : List Char) : Except PyErr KerasModelSequence := do
  let s := s.reset
  let s := { s with title := String.mk pre ++ epochTag ++ String.mk suf }
  let checkpointPathList := checkpointGlobMatches fs pre suf
  let checkpoints ← buildCheckpoints pre suf checkpointPathList
  let checkpointEpochs := List.insertionSort (fun a b => a ≤ b) (checkpoints.map Prod.fst)
  let modelPaths ← checkpointEpochs.mapM (fun e =>
    match List.lookup e checkpoints with
    | some p => Except.ok p
    | none => Except.error (PyErr.keyError "epoch"))
  Except.ok { s with modelPaths := modelPaths, numberEpochs := modelPaths.length }

/-- Python `set(...)` over the extracted model names; the iteration order of the set is
unspecified and the result is later sorted, modelled as deduplication keeping first
occurrences. -/
def dedupFirst (xs : List String) : List String :=
  xs.foldl (fun acc x => if acc.contains x then acc else acc ++ [x]) []

/-- Python `traceback.format_exc(limit=None, chain=True)`.  The source calls
`format_exc(e)` with the caught exception as the `limit` argument; the CPython
`StackSummary.extract` then evaluates `limit >= 0`, which raises `TypeError` for a
non-integer limit. -/
inductive FmtLimit where
  | noneL
  | intL (n : Int)
  | exc (e : PyErr)

/-- Rendering of the current traceback by `traceback.format_exc`; see `FmtLimit`. -/
def format_exc (limit : FmtLimit) : Except PyErr String :=
  match limit with
  | FmtLimit.noneL => Except.ok "traceback"
  | FmtLimit.intL _ => Except.ok "traceback"
  | FmtLimit.exc _ => Except.error PyErr.typeError

/-- The directory loop of `KerasModelSequence.list_models` over the existing files `fs`,
for `model_sequence_pattern = patA ++ "{model}" ++ patB ++ "{epoch}" ++ patC`: per
directory, glob `*.h5` and `*.tf` files, glob the checkpoint pattern, extract the
model name of each match by regex (`.group(1)` raising `AttributeError` on a failed search), and emit
one pattern path per distinct model name.  An exception aborts the loop, carrying the
models collected up to that point to the handler. -/
def listModelsLoop (fs : List String) (patA patB patC : String) :
    List String → List String → Except (PyErr × List String) (List String)
  | acc, [] => Except.ok acc
  | acc, dir :: rest =>
    let acc := acc ++ fs.filter (fun p => globMatch (dir ++ "/*.h5") p)
    let acc := acc ++ fs.filter (fun p => globMatch (dir ++ "/*.tf") p)
    let seqMatches := fs.filter
      (fun p => globMatch (dir ++ "/" ++ patA ++ "*" ++ patB ++ "[0-9]*" ++ patC) p)
    match seqMatches.mapM
        (fun p => (reSearchMW patA.data patB.data patC.data p.data).map String.mk) with
    | none => Except.error (PyErr.attributeError, acc)
    | some names =>
      let uniq := dedupFirst names
      let acc := acc ++ uniq.map (fun m => dir ++ "/" ++ (patA ++ m ++ patB ++ epochTag ++ patC))
      listModelsLoop fs patA patB patC acc rest

/-- The method `KerasModelSequence.list_models`: run the directory loop inside
`try/except`; on an exception the handler logs a warning and then evaluates
`traceback.format_exc(e)` — passing the exception as the `limit` argument — before the
collected models would be sorted and returned. -/
def KerasModelSequence.list_models (fs : List String) (directories : List String)
    (patA patB patC : String) : Except PyErr (List String) :=
  match listModelsLoop fs patA patB patC [] directories with
  | Except.ok models => Except.ok (List.insertionSort (fun a b => a ≤ b) models)
  | Except.error (e, models) =>
    match format_exc (FmtLimit.exc e) with
    | Except.error e2 => Except.error e2
    | Except.ok _ => Except.ok (List.insertionSort (fun a b => a ≤ b) models)

/-- The method `KerasModelSequence._load_keras_model`: index into the stored model paths
and load the model at that path, raising `ModelError` when the path does not exist.  The
filesystem is `fs`, mapping an existing, loadable model path to its model. -/
def KerasModelSequence.load_keras_model (fs : String → Option KerasModel)
    (s : KerasModelSequence) (i : Int) : Except PyErr KerasModel := do
  let p ← pyIdx s.modelPaths i
  match fs p with
  | none => Except.error (PyErr.modelError ("Model path not found \x27" ++ p ++ "\x27"))
  | some m => Except.ok m

/-- The method `KerasModelSequence.get_input_geometry`: `ModelError` when no model is
loaded, otherwise the input dtype and shape of the first model of the sequence. -/
def KerasModelSequence.get_input_geometry (fs : String → Option KerasModel)
    (s : KerasModelSequence) : Except PyErr (String × List Int) :=
  if s.numberEpochs = 0 then Except.error (PyErr.modelError "No model available")
  else do
    let m ← KerasModelSequence.load_keras_model fs s 0
    Except.ok (m.inputDtype, m.inputShape)

/-- Message text of a Python exception as interpolated by `str(e)`. -/
def errMsg : PyErr → String
  | PyErr.modelError m => m
  | PyErr.indexError => "IndexError"
  | PyErr.keyError k => k
  | PyErr.valueError => "ValueError"
  | PyErr.typeError => "TypeError"
  | PyErr.attributeError => "AttributeError"

/-- The method `KerasModelSequence.format_test_data`: compute the input geometry and
format the test data through `keras_prepare_input` (modelled from the spec: that helper
lives in `bridge/tensorflow.py`, not under src/, and is abstracted as `prepare`); any
exception is re-raised as `ModelError`. -/
def KerasModelSequence.format_test_data (fs : String → Option KerasModel)
    (prepare : String × List Int → Except PyErr Nat) (s : KerasModelSequence) :
    Except PyErr KerasModelSequence :=
  match (do
      let geom ← KerasModelSequence.get_input_geometry fs s
      let xf ← prepare geom
      Except.ok { s with testData := { s.testData with xFormat := some xf } } :
    Except PyErr KerasModelSequence) with
  | Except.ok s2 => Except.ok s2
  | Except.error e =>
    Except.error (PyErr.modelError ("Error while formatting test data: " ++ errMsg e))

/-- Modelled from the spec: `keras_set_model_properties` (bridge/tensorflow.py, not under
src/) sets the top-level properties of the DNN model on the grapher. -/
def keras_set_model_properties (g : Grapher) (m : KerasModel) : Grapher :=
  { g with modelProps := [("name", PVal.str m.name)] }

/-- The method `KerasModelSequence._load_model`: load model `i` from disk, store it as the
current model, set the model properties on the grapher, run the extractor over it, and
record the new epoch index. -/
def KerasModelSequence.load_model (fs : String → Option KerasModel) (g : Grapher)
    (s : KerasModelSequence) (i : Nat) (tapeResult : Except String (List Tensor)) :
    Except PyErr (KerasModelSequence × Grapher × Nat) := do
  let m ← KerasModelSequence.load_keras_model fs s (Int.ofNat i)
  let s := { s with currentModel := some m }
  let g := keras_set_model_properties g m
  let g ← process g m s.testData tapeResult
  let s := { s with currentEpochIndex := i }
  Except.ok (s, g, s.currentEpochIndex)

/-- Dash HTML components built by `property_list.widget`. -/
inductive Html where
  | h6 (title : String)
  | ul (children : List Html)
  | li (text : String)

/-- The function `dnnviewer.widgets.property_list.widget`: for a non-empty `values` dict,
a heading plus an unordered list with one `"label: value"` item per key of `values`
(subscripting `labels` raises `KeyError` for a missing key); the empty list otherwise. -/
def widget (title : String) (labels values : List (String × String)) :
    Except PyErr (List Html) :=
  if values.length > 0 then do
    let items ← values.mapM (fun p =>
      match List.lookup p.1 labels with
      | some lab => Except.ok (Html.li (lab ++ ": " ++ p.2))
      | none => Except.error (PyErr.keyError p.1))
    Except.ok [Html.h6 title, Html.ul items]
  else Except.ok []

/-- Test whether a UI layer is one of the Dense/Convo2D layer objects. -/
def isDCLayer (u : UILayer) : Bool :=
  decide (u.kind = UIKind.dense) || decide (u.kind = UIKind.convo2d)

/-- The Dense/Convo2D UI layers of a layer list, in display order. -/
def dcLayers (ls : List UILayer) : List UILayer :=
  ls.filter isDCLayer

/-- The identity-relevant core of a UI layer: kind, weight tensor and gradient tensor. -/
def dcCore (u : UILayer) : UIKind × Option Tensor × Option Tensor :=
  (u.kind, u.weights, u.grads)

/-- Cores of the Dense/Convo2D UI layers of a layer list, in display order. -/
def dcTriples (ls : List UILayer) : List (UIKind × Option Tensor × Option Tensor) :=
  (dcLayers ls).map dcCore

/-- Test whether a Keras layer class name is dispatched to Dense or Conv2D. -/
def isDCClass (kl : KerasLayer) : Bool :=
  decide (kl.className = "Dense") || decide (kl.className = "Conv2D")

/-- UI layer kind produced for a Dense/Conv2D class name. -/
def uiKindOf (c : String) : UIKind :=
  if c = "Dense" then UIKind.dense else UIKind.convo2d

/-- Gradient tensor stored by the Dense/Conv2D branches for gradient list `grads` and
cursor position `idx` (`None` when `grads` is falsy). -/
def gradField (grads : Option (List Tensor)) (idx : Nat) : Option Tensor :=
  match grads with
  | none => none
  | some gs => if gs.isEmpty then none else gs[idx]?

/-- Number of trainable weights of a Keras layer. -/
def twLen (kl : KerasLayer) : Nat :=
  kl.trainableWeights.length

/-- Total number of trainable weights over a list of Keras layers. -/
def sumTW (ls : List KerasLayer) : Nat :=
  (ls.map twLen).sum

/-- Core of the UI layer contributed by one Keras layer at gradient cursor `idx` (empty
for non-Dense/Conv2D classes). -/
def dcEntry (grads : Option (List Tensor)) (idx : Nat) (kl : KerasLayer) :
    List (UIKind × Option Tensor × Option Tensor) :=
  if isDCClass kl then [(uiKindOf kl.className, kl.weights.head?, gradField grads idx)]
  else []

/-- Cores of the UI layers contributed by a list of Keras layers starting at gradient
cursor `idx`. -/
def expectedDC (grads : Option (List Tensor)) : Nat → List KerasLayer →
    List (UIKind × Option Tensor × Option Tensor)
  | _, [] => []
  | idx, kl :: rest => dcEntry grads idx kl ++ expectedDC grads (idx + twLen kl) rest

/-- The zero tensor, used only as an unreachable default. -/
def tensor0 : Tensor :=
  { shape := [], payload := [] }

/-- Fixture: a theme. -/
def theme0 : Theme :=
  { tag := 0 }

/-- Fixture: test data without a test sample or class names. -/
def tdPlain : TestData :=
  { hasTestSample := false, inputClasses := none, outputClasses := none, xFormat := none }

/-- Fixture: a 4x3 kernel tensor. -/
def tKernel : Tensor :=
  { shape := [4, 3], payload := [10] }

/-- Fixture: a bias tensor. -/
def tBias : Tensor :=
  { shape := [3], payload := [20] }

/-- Fixture: a Dense Keras layer with kernel and bias. -/
def klDense1 : KerasLayer :=
  { className := "Dense", name := "d1", weights := [tKernel, tBias],
    trainableWeights := [tKernel, tBias], inputShape := [0, 4], outputShape := [0, 3],
    attrs := [], config := [], bias := none }

/-- Fixture: a Sequential model with one Dense layer. -/
def mDense1 : KerasModel :=
  { isSequential := true, name := "m", layers := [klDense1], inputDtype := "float32",
    inputShape := [0, 4] }

/-- Fixture: a Sequential model with no layers. -/
def mEmpty1 : KerasModel :=
  { mDense1 with layers := [] }

/-- Fixture: an empty grapher. -/
def grapher0 : Grapher :=
  { layers := [], theme := theme0, modelProps := [] }

/-- Fixture: a grapher still holding a layer from a previously loaded model. -/
def grapherStale : Grapher :=
  { layers := [Input "stale" 1 theme0 none], theme := theme0, modelProps := [] }

/-- C7: the model-sequence lifecycle is create-on-load and discard-on-reset:
`KerasModelSequence.reset()` leaves `model_paths` empty and `current_model` set to `None`,
and `load_single(file_path)`, which begins by resetting, leaves `title` equal to
`file_path`, `number_epochs` equal to 1, and `model_paths` equal to `[file_path]`. -/
theorem c7_lifecycle_reset_load_single :
    ∀ (s : KerasModelSequence) (filePath : String),
      (KerasModelSequence.reset s).modelPaths = [] ∧
      (KerasModelSequence.reset s).currentModel = none ∧
      (KerasModelSequence.load_single s filePath).title = filePath ∧
      (KerasModelSequence.load_single s filePath).numberEpochs = 1 ∧
      (KerasModelSequence.load_single s filePath).modelPaths = [filePath] := by
  intro s fp
  exact ⟨rfl, rfl, rfl, rfl, rfl⟩

/-- C8: for a Keras Sequential model with zero layers, `process()` logs an error and
returns without modifying the grapher — the emptiness check precedes `grapher.reset()`,
so any layer list built from a previously loaded model is left intact. -/
theorem c8_empty_model_leaves_grapher_intact (g : Grapher) (m : KerasModel)
    (td : TestData) (tape : Except String (List Tensor))
    (hseq : m.isSequential = true) (hempty : m.layers = []) :
    process g m td tape = Except.ok g := by
  simp [process, hseq, hempty]

/-- Witness for C8 at a concrete empty model and a grapher holding a stale layer. -/
theorem c8_witness :
    mEmpty1.isSequential = true ∧ mEmpty1.layers = [] ∧
    process grapherStale mEmpty1 tdPlain (Except.error "e") = Except.ok grapherStale :=
  ⟨rfl, rfl,
   c8_empty_model_leaves_grapher_intact grapherStale mEmpty1 tdPlain (Except.error "e")
     rfl rfl⟩

theorem except_ok_bind {ε α β : Type} (a : α) (f : α → Except ε β) :
    (Except.ok a >>= f : Except ε β) = f a := rfl

theorem except_err_bind {ε α β : Type} (e : ε) (f : α → Except ε β) :
    (Except.error e >>= f : Except ε β) = Except.error e := rfl

theorem widget_mapM_ok (labels : List (String × String)) :
    ∀ (values : List (String × String)),
      (∀ p ∈ values, (List.lookup p.1 labels).isSome) →
      values.mapM (fun p =>
          match List.lookup p.1 labels with
          | some lab => Except.ok (Html.li (lab ++ ": " ++ p.2))
          | none => Except.error (PyErr.keyError p.1)) =
        Except.ok (values.map (fun p =>
          Html.li ((List.lookup p.1 labels).getD "" ++ ": " ++ p.2))) := by
  intro values
  induction values with
  | nil => intro _; rfl
  | cons p rest ih =>
    intro h
    have hp := h p (by simp)
    cases hl : List.lookup p.1 labels with
    | none => rw [hl] at hp; simp at hp
    | some lab =>
      have hrest := ih (fun q hq => h q (by simp [hq]))
      rw [List.mapM_cons, hrest, hl]
      simp [hl, except_ok_bind]

theorem widget_mapM_err (labels : List (String × String)) :
    ∀ (values : List (String × String)),
      (∃ p ∈ values, List.lookup p.1 labels = none) →
      ∃ k, values.mapM (fun p =>
          match List.lookup p.1 labels with
          | some lab => Except.ok (Html.li (lab ++ ": " ++ p.2))
          | none => Except.error (PyErr.keyError p.1)) =
        Except.error (PyErr.keyError k) := by
  intro values
  induction values with
  | nil => rintro ⟨p, hp, _⟩; simp at hp
  | cons p rest ih =>
    rintro ⟨q, hq, hnone⟩
    cases hl : List.lookup p.1 labels with
    | none =>
      exact ⟨p.1, by rw [List.mapM_cons, hl]; rfl⟩
    | some lab =>
      rcases List.mem_cons.mp hq with hqp | hqrest
      · subst hqp; rw [hl] at hnone; exact absurd hnone (by simp)
      · obtain ⟨k, hk⟩ := ih ⟨q, hqrest, hnone⟩
        exact ⟨k, by rw [List.mapM_cons, hl, hk]; rfl⟩

/-- C9: `widget(title, labels, values)` returns the empty list when `values` is empty;
when `values` is non-empty and every key of `values` is also a key of `labels`, it returns
a heading built from `title` and an unordered list with exactly one `"label: value"` item
per key of `values`; a key of `values` missing from `labels` makes the call raise a
`KeyError`. -/
theorem c9_property_list_widget :
    ∀ (title : String) (labels values : List (String × String)),
      (values = [] → widget title labels values = Except.ok []) ∧
      (values ≠ [] → (∀ p ∈ values, (List.lookup p.1 labels).isSome) →
        widget title labels values = Except.ok
          [Html.h6 title,
           Html.ul (values.map (fun p =>
             Html.li ((List.lookup p.1 labels).getD "" ++ ": " ++ p.2)))]) ∧
      (values ≠ [] → (∃ p ∈ values, List.lookup p.1 labels = none) →
        ∃ k, widget title labels values = Except.error (PyErr.keyError k)) := by
  intro title labels values
  refine ⟨fun h => by subst h; rfl, fun hne hall => ?_, fun hne hmiss => ?_⟩
  · have hlen : 0 < values.length := List.length_pos.mpr hne
    rw [widget, if_pos hlen, widget_mapM_ok labels values hall]
    rfl
  · have hlen : 0 < values.length := List.length_pos.mpr hne
    obtain ⟨k, hk⟩ := widget_mapM_err labels values hmiss
    exact ⟨k, by rw [widget, if_pos hlen, hk]; rfl⟩

/-- Witness for C9 at concrete dictionaries: empty values, fully labelled values, and a
value key missing from the labels. -/
theorem c9_witness :
    widget "T" [("a", "A")] [] = Except.ok [] ∧
    widget "T" [("a", "A")] [("a", "1")] =
      Except.ok [Html.h6 "T", Html.ul [Html.li "A: 1"]] ∧
    ∃ k, widget "T" [("a", "A")] [("b", "2")] = Except.error (PyErr.keyError k) := by
  refine ⟨(c9_property_list_widget "T" [("a", "A")] []).1 rfl, ?_, ?_⟩
  · have h := (c9_property_list_widget "T" [("a", "A")] [("a", "1")]).2.1
      (by simp) (by intro p hp; simp at hp; subst hp; rfl)
    simpa using h
  · exact (c9_property_list_widget "T" [("a", "A")] [("b", "2")]).2.2
      (by simp) ⟨("b", "2"), by simp, rfl⟩

theorem pyIdx_zero_cons {α : Type} (x : α) (xs : List α) :
    pyIdx (x :: xs) 0 = Except.ok x := by
  simp [pyIdx]

/-- C4: failures during model access are converted to `ModelError`:
`get_input_geometry` raises `ModelError` when `number_epochs` is 0 and otherwise returns
the input dtype and shape of the first model of the sequence; `format_test_data`
re-raises any underlying exception as `ModelError`; `_load_keras_model` raises
`ModelError` when the model path does not exist. -/
theorem c4_model_error_conversion :
    (∀ (fs : String → Option KerasModel) (s : KerasModelSequence),
      s.numberEpochs = 0 →
      KerasModelSequence.get_input_geometry fs s =
        Except.error (PyErr.modelError "No model available")) ∧
    (∀ (fs : String → Option KerasModel) (s : KerasModelSequence) (m : KerasModel)
        (p : String) (rest : List String),
      s.numberEpochs ≠ 0 → s.modelPaths = p :: rest → fs p = some m →
      KerasModelSequence.get_input_geometry fs s =
        Except.ok (m.inputDtype, m.inputShape)) ∧
    (∀ (fs : String → Option KerasModel) (prepare : String × List Int → Except PyErr Nat)
        (s : KerasModelSequence) (e : PyErr),
      KerasModelSequence.format_test_data fs prepare s = Except.error e →
      ∃ msg, e = PyErr.modelError msg) ∧
    (∀ (fs : String → Option KerasModel) (s : KerasModelSequence) (i : Int) (p : String),
      pyIdx s.modelPaths i = Except.ok p → fs p = none →
      KerasModelSequence.load_keras_model fs s i =
        Except.error (PyErr.modelError ("Model path not found \x27" ++ p ++ "\x27"))) := by
  refine ⟨fun fs s h => by simp [KerasModelSequence.get_input_geometry, h],
          fun fs s m p rest hne hp hfs => ?_, fun fs prepare s e h => ?_,
          fun fs s i p hidx hfs => ?_⟩
  · simp only [KerasModelSequence.get_input_geometry, if_neg hne,
      KerasModelSequence.load_keras_model, hp, pyIdx_zero_cons, except_ok_bind, hfs]
  · unfold KerasModelSequence.format_test_data at h
    split at h
    · simp at h
    · rename_i e0 heq
      exact ⟨"Error while formatting test data: " ++ errMsg e0, by
        simp only [Except.error.injEq] at h; exact h.symm⟩
  · simp only [KerasModelSequence.load_keras_model, hidx, except_ok_bind, hfs]

/-- Fixture: a sequence with no epochs. -/
def seqEpoch0 : KerasModelSequence :=
  { title := "", numberEpochs := 0, currentEpochIndex := 0, modelPaths := [],
    currentModel := none, testData := tdPlain }

/-- Fixture: a sequence with one registered model path. -/
def seqOne : KerasModelSequence :=
  { seqEpoch0 with numberEpochs := 1, modelPaths := ["p"] }

/-- Fixture: a filesystem holding one loadable model at path `p`. -/
def fsOne : String → Option KerasModel :=
  fun p => if p = "p" then some mDense1 else none

/-- Fixture: a filesystem with no loadable model. -/
def fsNone : String → Option KerasModel :=
  fun _ => none

/-- Witness for C4 at concrete sequences and filesystems. -/
theorem c4_witness :
    KerasModelSequence.get_input_geometry fsOne seqEpoch0 =
      Except.error (PyErr.modelError "No model available") ∧
    KerasModelSequence.get_input_geometry fsOne seqOne =
      Except.ok (mDense1.inputDtype, mDense1.inputShape) ∧
    (∃ msg, (PyErr.modelError ("Error while formatting test data: No model available")) =
      PyErr.modelError msg) ∧
    KerasModelSequence.load_keras_model fsNone seqOne 0 =
      Except.error (PyErr.modelError ("Model path not found \x27" ++ "p" ++ "\x27")) := by
  refine ⟨c4_model_error_conversion.1 fsOne seqEpoch0 rfl,
          c4_model_error_conversion.2.1 fsOne seqOne mDense1 "p" [] (by simp [seqOne])
            rfl rfl,
          c4_model_error_conversion.2.2.1 fsNone (fun _ => Except.ok 0) seqEpoch0 _ rfl,
          c4_model_error_conversion.2.2.2 fsNone seqOne 0 "p" (pyIdx_zero_cons "p" [])
            rfl⟩

theorem except_bind_ok_iff {ε α β : Type} {x : Except ε α} {f : α → Except ε β} {b : β} :
    (x >>= f) = Except.ok b ↔ ∃ a, x = Except.ok a ∧ f a = Except.ok b := by
  cases x with
  | ok a => simp [except_ok_bind]
  | error e => simp [except_err_bind]

/-- Invariance relation between a freshly constructed UI layer and its decorated version:
kind, weight tensor and gradient tensor are untouched. -/
def sameCore (a b : UILayer) : Prop :=
  b.kind = a.kind ∧ b.weights = a.weights ∧ b.grads = a.grads

theorem sameCore_refl (l : UILayer) : sameCore l l :=
  ⟨rfl, rfl, rfl⟩

theorem sameCore_trans {a b c : UILayer} (h1 : sameCore a b) (h2 : sameCore b c) :
    sameCore a c :=
  ⟨h2.1.trans h1.1, h2.2.1.trans h1.2.1, h2.2.2.trans h1.2.2⟩

theorem stepReg_core (kl : KerasLayer) (l : UILayer) (a : String) (l2 : UILayer)
    (h : stepReg kl l a = Except.ok l2) : sameCore l l2 := by
  unfold stepReg at h
  cases hv : regValue kl a with
  | error e => rw [hv] at h; simp [Except.map] at h
  | ok v =>
    rw [hv] at h
    simp only [Except.map, Except.ok.injEq] at h
    cases v with
    | none => subst h; exact sameCore_refl l
    | some pv => subst h; exact ⟨rfl, rfl, rfl⟩

theorem foldlM_stepReg_core (kl : KerasLayer) :
    ∀ (as : List String) (l l2 : UILayer),
      List.foldlM (stepReg kl) l as = Except.ok l2 → sameCore l l2 := by
  intro as
  induction as with
  | nil =>
    intro l l2 h
    simp only [List.foldlM_nil] at h
    cases h
    exact sameCore_refl l
  | cons a rest ih =>
    intro l l2 h
    simp only [List.foldlM_cons] at h
    rw [except_bind_ok_iff] at h
    obtain ⟨l1, h1, h2⟩ := h
    exact sameCore_trans (stepReg_core kl l a l1 h1) (ih l1 l2 h2)

theorem ite_bias_core (c : Bool) (l : UILayer) (b : Option Tensor) :
    sameCore l (if c = true then { l with bias := b } else l) := by
  cases c
  · exact sameCore_refl l
  · exact ⟨rfl, rfl, rfl⟩

theorem applyBias_core (kl : KerasLayer) (l : UILayer) : sameCore l (applyBias kl l) := by
  unfold applyBias
  dsimp only
  exact ite_bias_core _ l kl.bias

theorem applyActivationCaption_core (act : Option AttrVal) (l : UILayer) :
    sameCore l (applyActivationCaption act l) := by
  cases act with
  | none => exact sameCore_refl l
  | some v => exact ⟨rfl, rfl, rfl⟩

theorem decorateLayer_core (layer0 : UILayer) (kl : KerasLayer)
    (ltp lip : List (String × PVal)) (l : UILayer)
    (h : decorateLayer layer0 kl ltp lip = Except.ok l) : sameCore layer0 l := by
  simp only [decorateLayer] at h
  rw [except_bind_ok_iff] at h
  obtain ⟨l2, hfold, h⟩ := h
  rw [except_bind_ok_iff] at h
  obtain ⟨act, hact, h⟩ := h
  simp only [Except.ok.injEq] at h
  have hmid := foldlM_stepReg_core kl _ _ l2 hfold
  have hcore1 : sameCore layer0 l2 := sameCore_trans ⟨rfl, rfl, rfl⟩ hmid
  rw [← h]
  exact sameCore_trans (sameCore_trans hcore1 (applyBias_core kl l2))
    (applyActivationCaption_core act (applyBias kl l2))

theorem processAddLayer_ok (g : Grapher) (layer0 : UILayer) (kl : KerasLayer)
    (ltp lip : List (String × PVal)) (g2 : Grapher)
    (h : processAddLayer g layer0 kl ltp lip = Except.ok g2) :
    ∃ l, g2 = Grapher.add_layer g l ∧ sameCore layer0 l := by
  simp only [processAddLayer] at h
  rw [except_bind_ok_iff] at h
  obtain ⟨l, hdec, h⟩ := h
  simp only [Except.ok.injEq] at h
  exact ⟨l, h.symm, decorateLayer_core layer0 kl ltp lip l hdec⟩

theorem isDCLayer_of_sameCore {a b : UILayer} (h : sameCore a b) :
    isDCLayer b = isDCLayer a := by
  simp [isDCLayer, h.1]

theorem dcCore_of_sameCore {a b : UILayer} (h : sameCore a b) : dcCore b = dcCore a := by
  simp [dcCore, h.1, h.2.1, h.2.2]

theorem dcTriples_append (ls1 ls2 : List UILayer) :
    dcTriples (ls1 ++ ls2) = dcTriples ls1 ++ dcTriples ls2 := by
  simp [dcTriples, dcLayers, List.filter_append]

theorem dcTriples_single (l : UILayer) :
    dcTriples [l] = if isDCLayer l then [dcCore l] else [] := by
  by_cases h : isDCLayer l <;> simp [dcTriples, dcLayers, List.filter, h]

theorem dcTriples_add_layer (g : Grapher) (l : UILayer) :
    dcTriples (Grapher.add_layer g l).layers =
      dcTriples g.layers ++ (if isDCLayer l then [dcCore l] else []) := by
  simp [Grapher.add_layer, dcTriples_append, dcTriples_single]

theorem dcTriples_modifyLast (g : Grapher) (f : UILayer → UILayer)
    (hf : ∀ l, sameCore l (f l)) :
    dcTriples (modifyLast g f).layers = dcTriples g.layers := by
  unfold modifyLast
  cases hL : g.layers.getLast? with
  | none => rfl
  | some l =>
    have hne : g.layers ≠ [] := by
      intro h0
      rw [h0] at hL
      simp at hL
    have hget : g.layers.getLast hne = l := by
      rw [List.getLast?_eq_getLast g.layers hne] at hL
      exact (Option.some.injEq _ _).mp hL
    have hsplit : g.layers = g.layers.dropLast ++ [l] := by
      conv_lhs => rw [← List.dropLast_append_getLast hne]
      rw [hget]
    conv_rhs => rw [hsplit]
    simp only [dcTriples_append, dcTriples_single]
    rw [isDCLayer_of_sameCore (hf l), dcCore_of_sameCore (hf l)]

theorem pyIdx_zero_head {α : Type} (xs : List α) (w : α)
    (h : pyIdx xs 0 = Except.ok w) : xs.head? = some w := by
  cases xs with
  | nil => simp [pyIdx] at h
  | cons x xs =>
    rw [pyIdx_zero_cons] at h
    cases h
    rfl

theorem pyIdx_nat_getElem {α : Type} (xs : List α) (i : Nat) (v : α)
    (h : pyIdx xs (Int.ofNat i) = Except.ok v) : xs[i]? = some v := by
  unfold pyIdx at h
  have hneg : ¬ (Int.ofNat i < 0) := by simp [Int.not_lt]
  simp only [hneg, if_false] at h
  split at h
  · rename_i hc
    simp only [Except.ok.injEq] at h
    have hi : i < xs.length := by simpa [Int.toNat_ofNat] using hc.2
    rw [List.getElem?_eq_getElem hi, ← h]
    simp [List.get_eq_getElem, Int.toNat_ofNat]
  · exact absurd h (by simp)

theorem gradArg_ok (grads : Option (List Tensor)) (idx : Nat) (r : Option Tensor)
    (h : gradArg grads idx = Except.ok r) : r = gradField grads idx := by
  cases grads with
  | none =>
    simp only [gradArg] at h
    cases h
    rfl
  | some gs =>
    simp only [gradArg, gradField] at h ⊢
    by_cases he : gs.isEmpty
    · rw [if_pos he] at h
      cases h
      rw [if_pos he]
    · rw [if_neg he] at h
      rw [if_neg he]
      cases hp : pyIdx gs (Int.ofNat idx) with
      | error e => rw [hp] at h; simp [Except.map] at h
      | ok v =>
        rw [hp] at h
        simp only [Except.map, Except.ok.injEq] at h
        rw [← h, pyIdx_nat_getElem gs idx v hp]

theorem convoExtraProps_dcTriples (g : Grapher) (kl : KerasLayer) (g2 : Grapher)
    (h : convoExtraProps g kl = Except.ok g2) :
    dcTriples g2.layers = dcTriples g.layers := by
  simp only [convoExtraProps] at h
  rw [except_bind_ok_iff] at h
  obtain ⟨strides, -, h⟩ := h
  rw [except_bind_ok_iff] at h
  obtain ⟨g1, hg1, h⟩ := h
  rw [except_bind_ok_iff] at h
  obtain ⟨padding, -, h⟩ := h
  have hA : dcTriples g1.layers = dcTriples g.layers := by
    split at hg1
    · rw [except_bind_ok_iff] at hg1
      obtain ⟨sv, -, hg1⟩ := hg1
      split at hg1
      · rw [except_bind_ok_iff] at hg1
        obtain ⟨s0, -, hg1⟩ := hg1
        rw [except_bind_ok_iff] at hg1
        obtain ⟨s1, -, hg1⟩ := hg1
        simp only [Except.ok.injEq] at hg1
        rw [← hg1]
        refine dcTriples_modifyLast g _ ?_
        intro l
        exact ⟨rfl, rfl, rfl⟩
      · simp only [Except.ok.injEq] at hg1
        rw [← hg1]
    · simp only [Except.ok.injEq] at hg1
      rw [← hg1]
  split at h
  · simp only [Except.ok.injEq] at h
    rw [← h]
    refine Eq.trans (dcTriples_modifyLast g1 _ ?_) hA
    intro l
    exact ⟨rfl, rfl, rfl⟩
  · simp only [Except.ok.injEq] at h
    rw [← h, hA]

theorem isDCClass_false {kl : KerasLayer} (hD : ¬ kl.className = "Dense")
    (hC : ¬ kl.className = "Conv2D") : isDCClass kl = false := by
  simp [isDCClass, hD, hC]

theorem dcEntry_nonDC (grads : Option (List Tensor)) (idx : Nat) (kl : KerasLayer)
    (h : isDCClass kl = false) : dcEntry grads idx kl = [] := by
  simp [dcEntry, h]

theorem dispatchLayer_dcTriples (td : TestData) (grads : Option (List Tensor))
    (st : ExtractState) (kl : KerasLayer) (g2 : Grapher)
    (ntp nip : List (String × PVal))
    (h : dispatchLayer td grads st kl = Except.ok (g2, ntp, nip)) :
    dcTriples g2.layers = dcTriples st.grapher.layers ++ dcEntry grads st.idxGrads kl := by
  unfold dispatchLayer at h
  by_cases hD : kl.className = "Dense"
  · rw [if_pos hD] at h
    rw [except_bind_ok_iff] at h
    obtain ⟨units, hu, h⟩ := h
    rw [except_bind_ok_iff] at h
    obtain ⟨w, hw, h⟩ := h
    rw [except_bind_ok_iff] at h
    obtain ⟨gr, hgr, h⟩ := h
    rw [except_bind_ok_iff] at h
    obtain ⟨gAdd, hAdd, h⟩ := h
    simp only [Except.ok.injEq, Prod.mk.injEq] at h
    obtain ⟨hg2, -, -⟩ := h
    obtain ⟨l, hEq, hCore⟩ := processAddLayer_ok _ _ _ _ _ _ hAdd
    have hkind : l.kind = UIKind.dense := hCore.1
    have hW : l.weights = some w := hCore.2.1
    have hG : l.grads = gr := hCore.2.2
    have hH : kl.weights.head? = some w := pyIdx_zero_head kl.weights w hw
    have hGF : gr = gradField grads st.idxGrads := gradArg_ok grads st.idxGrads gr hgr
    rw [← hg2, hEq, dcTriples_add_layer]
    have hDCl : isDCLayer l = true := by simp [isDCLayer, hkind]
    rw [if_pos hDCl]
    simp [dcEntry, isDCClass, hD, dcCore, hkind, hW, hG, hGF, hH, uiKindOf]
  · rw [if_neg hD] at h
    by_cases hC : kl.className = "Conv2D"
    · rw [if_pos hC] at h
      rw [except_bind_ok_iff] at h
      obtain ⟨units, hu, h⟩ := h
      rw [except_bind_ok_iff] at h
      obtain ⟨w, hw, h⟩ := h
      rw [except_bind_ok_iff] at h
      obtain ⟨gr, hgr, h⟩ := h
      rw [except_bind_ok_iff] at h
      obtain ⟨gAdd, hAdd, h⟩ := h
      rw [except_bind_ok_iff] at h
      obtain ⟨gExtra, hExtra, h⟩ := h
      simp only [Except.ok.injEq, Prod.mk.injEq] at h
      obtain ⟨hg2, -, -⟩ := h
      obtain ⟨l, hEq, hCore⟩ := processAddLayer_ok _ _ _ _ _ _ hAdd
      have hkind : l.kind = UIKind.convo2d := hCore.1
      have hW : l.weights = some w := hCore.2.1
      have hG : l.grads = gr := hCore.2.2
      have hH : kl.weights.head? = some w := pyIdx_zero_head kl.weights w hw
      have hGF : gr = gradField grads st.idxGrads := gradArg_ok grads st.idxGrads gr hgr
      rw [← hg2, convoExtraProps_dcTriples gAdd kl gExtra hExtra, hEq,
        dcTriples_add_layer]
      have hDCl : isDCLayer l = true := by simp [isDCLayer, hkind]
      rw [if_pos hDCl]
      simp [dcEntry, isDCClass, hC, hD, dcCore, hkind, hW, hG, hGF, hH, uiKindOf]
    · rw [if_neg hC] at h
      rw [dcEntry_nonDC grads st.idxGrads kl (isDCClass_false hD hC), List.append_nil]
      by_cases hF : kl.className = "Flatten"
      · rw [if_pos hF] at h
        split at h
        · split at h
          · simp only [Except.ok.injEq, Prod.mk.injEq] at h
            obtain ⟨hg2, -, -⟩ := h
            rw [← hg2]
            refine dcTriples_modifyLast st.grapher _ ?_
            intro l
            exact ⟨rfl, rfl, rfl⟩
          · simp only [Except.ok.injEq, Prod.mk.injEq] at h
            obtain ⟨hg2, -, -⟩ := h
            rw [← hg2]
        · rw [except_bind_ok_iff] at h
          obtain ⟨units, hu, h⟩ := h
          simp only [Except.ok.injEq, Prod.mk.injEq] at h
          obtain ⟨hg2, -, -⟩ := h
          rw [← hg2, dcTriples_add_layer]
          rw [if_neg (by simp [isDCLayer, Input])]
          simp
      · rw [if_neg hF] at h
        by_cases hP : poolingLayers.contains kl.className = true
        · rw [if_pos hP] at h
          split at h
          · rw [except_bind_ok_iff] at h
            obtain ⟨ps, hps, h⟩ := h
            rw [except_bind_ok_iff] at h
            obtain ⟨poolSize, hpool, h⟩ := h
            split at h
            · exact absurd h (by simp)
            · simp only [Except.ok.injEq, Prod.mk.injEq] at h
              obtain ⟨hg2, -, -⟩ := h
              rw [← hg2]
              refine dcTriples_modifyLast st.grapher _ ?_
              intro l
              exact ⟨rfl, rfl, rfl⟩
          · simp only [Except.ok.injEq, Prod.mk.injEq] at h
            obtain ⟨hg2, -, -⟩ := h
            rw [← hg2]
        · rw [if_neg hP] at h
          by_cases hA : kl.className = "Activation"
          · rw [if_pos hA] at h
            split at h
            · rw [except_bind_ok_iff] at h
              obtain ⟨act, hact, h⟩ := h
              simp only [Except.ok.injEq, Prod.mk.injEq] at h
              obtain ⟨hg2, -, -⟩ := h
              rw [← hg2]
              refine dcTriples_modifyLast st.grapher _ ?_
              intro l
              exact ⟨rfl, rfl, rfl⟩
            · simp only [Except.ok.injEq, Prod.mk.injEq] at h
              obtain ⟨hg2, -, -⟩ := h
              rw [← hg2]
          · rw [if_neg hA] at h
            by_cases hDr : dropoutLayers.contains kl.className = true
            · rw [if_pos hDr] at h
              split at h
              · rw [except_bind_ok_iff] at h
                obtain ⟨rate, hrate, h⟩ := h
                simp only [Except.ok.injEq, Prod.mk.injEq] at h
                obtain ⟨hg2, -, -⟩ := h
                rw [← hg2]
              · simp only [Except.ok.injEq, Prod.mk.injEq] at h
                obtain ⟨hg2, -, -⟩ := h
                rw [← hg2]
            · rw [if_neg hDr] at h
              by_cases hB : kl.className = "BatchNormalization"
              · rw [if_pos hB] at h
                simp only [Except.ok.injEq, Prod.mk.injEq] at h
                obtain ⟨hg2, -, -⟩ := h
                rw [← hg2]
              · rw [if_neg hB] at h
                simp only [Except.ok.injEq, Prod.mk.injEq] at h
                obtain ⟨hg2, -, -⟩ := h
                rw [← hg2]

theorem processLayer_spec (td : TestData) (grads : Option (List Tensor))
    (st : ExtractState) (kl : KerasLayer) (st2 : ExtractState)
    (h : processLayer td grads st kl = Except.ok st2) :
    dcTriples st2.grapher.layers =
      dcTriples st.grapher.layers ++ dcEntry grads st.idxGrads kl ∧
    st2.idxGrads = st.idxGrads + twLen kl := by
  simp only [processLayer] at h
  rw [except_bind_ok_iff] at h
  obtain ⟨r, hdisp, h⟩ := h
  obtain ⟨rg, rntp, rnip⟩ := r
  simp only [Except.ok.injEq] at h
  constructor
  · rw [← h]
    exact dispatchLayer_dcTriples td grads st kl rg rntp rnip hdisp
  · rw [← h]
    rfl

theorem expectedDC_cons (grads : Option (List Tensor)) (idx : Nat) (kl : KerasLayer)
    (rest : List KerasLayer) :
    expectedDC grads idx (kl :: rest) =
      dcEntry grads idx kl ++ expectedDC grads (idx + twLen kl) rest := rfl

theorem sumTW_cons (kl : KerasLayer) (rest : List KerasLayer) :
    sumTW (kl :: rest) = twLen kl + sumTW rest := by
  simp [sumTW]

theorem runLayers_spec (td : TestData) (grads : Option (List Tensor)) :
    ∀ (kls : List KerasLayer) (st st2 : ExtractState),
      runLayers td grads st kls = Except.ok st2 →
      dcTriples st2.grapher.layers =
        dcTriples st.grapher.layers ++ expectedDC grads st.idxGrads kls ∧
      st2.idxGrads = st.idxGrads + sumTW kls := by
  intro kls
  induction kls with
  | nil =>
    intro st st2 h
    simp only [runLayers, Except.ok.injEq] at h
    rw [← h]
    simp [expectedDC, sumTW]
  | cons kl rest ih =>
    intro st st2 h
    simp only [runLayers] at h
    rw [except_bind_ok_iff] at h
    obtain ⟨st1, h1, h2⟩ := h
    obtain ⟨hdc1, hidx1⟩ := processLayer_spec td grads st kl st1 h1
    obtain ⟨hdc2, hidx2⟩ := ih st1 st2 h2
    constructor
    · rw [hdc2, hdc1, hidx1, expectedDC_cons, List.append_assoc]
    · rw [hidx2, hidx1, sumTW_cons, Nat.add_assoc]

theorem process_dcTriples (g : Grapher) (m : KerasModel) (td : TestData)
    (tape : Except String (List Tensor)) (g2 : Grapher)
    (hseq : m.isSequential = true) (hne : m.layers ≠ [])
    (h : process g m td tape = Except.ok g2) :
    dcTriples g2.layers =
      expectedDC (compute_gradients td.hasTestSample tape) 0 m.layers := by
  unfold process at h
  rw [if_pos hseq] at h
  cases hL : m.layers with
  | nil => exact absurd hL hne
  | cons kl0 rest =>
    rw [hL] at h
    dsimp only at h
    rw [except_bind_ok_iff] at h
    obtain ⟨g1, hg1, h⟩ := h
    rw [except_bind_ok_iff] at h
    obtain ⟨stF, hrun, h⟩ := h
    have hdc1 : dcTriples g1.layers = [] := by
      by_cases hw : kl0.weights.length > 0
      · rw [if_pos hw] at hg1
        rw [except_bind_ok_iff] at hg1
        obtain ⟨w0, -, hg1⟩ := hg1
        rw [except_bind_ok_iff] at hg1
        obtain ⟨dim, -, hg1⟩ := hg1
        simp only [Except.ok.injEq] at hg1
        rw [← hg1, dcTriples_add_layer]
        rw [if_neg (by simp [isDCLayer, Input])]
        simp [Grapher.reset, dcTriples, dcLayers]
      · rw [if_neg hw] at hg1
        simp only [Except.ok.injEq] at hg1
        rw [← hg1]
        simp [Grapher.reset, dcTriples, dcLayers]
    obtain ⟨hdcF, -⟩ := runLayers_spec td _ (kl0 :: rest) _ stF hrun
    rw [hdc1] at hdcF
    simp only [List.nil_append] at hdcF
    cases hoc : td.outputClasses with
    | none =>
      rw [hoc] at h
      dsimp only at h
      simp only [Except.ok.injEq] at h
      rw [← h, hdcF]
    | some names =>
      rw [hoc] at h
      dsimp only at h
      rw [except_bind_ok_iff] at h
      obtain ⟨lastL, -, h⟩ := h
      simp only [Except.ok.injEq] at h
      rw [← h]
      refine Eq.trans (dcTriples_modifyLast stF.grapher _ ?_) hdcF
      intro l
      exact ⟨rfl, rfl, rfl⟩

theorem expectedDC_pairs (grads : Option (List Tensor)) :
    ∀ (ls : List KerasLayer) (idx : Nat),
      (expectedDC grads idx ls).map (fun t => (t.1, t.2.1)) =
        (ls.filter isDCClass).map
          (fun kl => (uiKindOf kl.className, kl.weights.head?)) := by
  intro ls
  induction ls with
  | nil => intro idx; rfl
  | cons kl rest ih =>
    intro idx
    rw [expectedDC_cons, List.map_append, ih]
    by_cases hdc : isDCClass kl = true
    · simp [dcEntry, hdc, List.filter_cons]
    · simp [dcEntry, hdc, List.filter_cons]

theorem dcLayers_map_pairs (ls : List UILayer) :
    (dcLayers ls).map (fun u => (u.kind, u.weights)) =
      (dcTriples ls).map (fun t => (t.1, t.2.1)) := by
  simp only [dcTriples, List.map_map]
  rfl

/-- C1: `process()` iterates the layers of the model in order and dispatches on the class name:
each layer of class `Dense` or `Conv2D` produces a Dense resp. Convo2D UI layer holding a
copy of the first weight tensor of that layer, and these UI layers appear in the grapher in the
same order as the layers of the model. -/
theorem c1_dense_conv_dispatch (g : Grapher) (m : KerasModel) (td : TestData)
    (tape : Except String (List Tensor)) (g2 : Grapher)
    (hseq : m.isSequential = true) (hne : m.layers ≠ [])
    (hok : process g m td tape = Except.ok g2) :
    (dcLayers g2.layers).map (fun u => (u.kind, u.weights)) =
      (m.layers.filter isDCClass).map
        (fun kl => (uiKindOf kl.className, kl.weights.head?)) := by
  have h := process_dcTriples g m td tape g2 hseq hne hok
  rw [dcLayers_map_pairs, h, expectedDC_pairs]

/-- Witness for C1 at a concrete one-Dense-layer Sequential model. -/
theorem c1_witness :
    ∃ g2, process grapher0 mDense1 tdPlain (Except.error "e") = Except.ok g2 ∧
      (dcLayers g2.layers).map (fun u => (u.kind, u.weights)) =
        [(UIKind.dense, some tKernel)] := by
  refine ⟨_, rfl, ?_⟩
  have h := c1_dense_conv_dispatch grapher0 mDense1 tdPlain (Except.error "e") _ rfl
    (by simp [mDense1]) rfl
  rw [h]
  rfl

theorem expectedDC_grads_none :
    ∀ (ls : List KerasLayer) (idx : Nat),
      (expectedDC none idx ls).map (fun t => t.2.2) =
        List.replicate (ls.filter isDCClass).length none := by
  intro ls
  induction ls with
  | nil => intro idx; rfl
  | cons kl rest ih =>
    intro idx
    rw [expectedDC_cons, List.map_append, ih]
    by_cases hdc : isDCClass kl = true
    · simp [dcEntry, hdc, List.filter_cons, gradField, List.replicate_succ]
    · simp [dcEntry, hdc, List.filter_cons]

theorem dcLayers_map_grads (ls : List UILayer) :
    (dcLayers ls).map (fun u => u.grads) =
      (dcTriples ls).map (fun t => t.2.2) := by
  simp only [dcTriples, List.map_map]
  rfl

/-- C5: errors during gradient computation are caught per-call and logged, never
propagated: `compute_gradients` returns `None` both when no test sample is available and
when the gradient-tape computation raises, and `process()` then still builds all Dense and
Convo2D layer objects, passing `None` in place of the gradient arrays. -/
theorem c5_gradient_failure_contained :
    (∀ (tape : Except String (List Tensor)), compute_gradients false tape = none) ∧
    (∀ (e : String), compute_gradients true (Except.error e) = none) ∧
    (∀ (g : Grapher) (m : KerasModel) (td : TestData) (e : String) (g2 : Grapher),
      m.isSequential = true → m.layers ≠ [] →
      process g m td (Except.error e) = Except.ok g2 →
      (∀ u ∈ dcLayers g2.layers, u.grads = none) ∧
      (dcLayers g2.layers).length = (m.layers.filter isDCClass).length) := by
  refine ⟨fun tape => rfl, fun e => rfl, fun g m td e g2 hseq hne hok => ?_⟩
  have h := process_dcTriples g m td (Except.error e) g2 hseq hne hok
  have hnone : compute_gradients td.hasTestSample (Except.error e) = none := by
    cases htd : td.hasTestSample <;> simp [compute_gradients]
  rw [hnone] at h
  have hmap : (dcLayers g2.layers).map (fun u => u.grads) =
      List.replicate (m.layers.filter isDCClass).length none := by
    rw [dcLayers_map_grads, h, expectedDC_grads_none]
  constructor
  · intro u hu
    have hmem : u.grads ∈ (dcLayers g2.layers).map (fun u => u.grads) :=
      List.mem_map_of_mem _ hu
    rw [hmap] at hmem
    exact List.eq_of_mem_replicate hmem
  · have hlen := congrArg List.length hmap
    simpa using hlen

/-- Witness for C5 at a concrete model with a failing gradient tape. -/
theorem c5_witness :
    compute_gradients false (Except.ok [tKernel]) = none ∧
    compute_gradients true (Except.error "boom") = none ∧
    ∃ g2, process grapher0 mDense1 tdPlain (Except.error "boom") = Except.ok g2 ∧
      (∀ u ∈ dcLayers g2.layers, u.grads = none) ∧
      (dcLayers g2.layers).length = (mDense1.layers.filter isDCClass).length := by
  refine ⟨c5_gradient_failure_contained.1 _, c5_gradient_failure_contained.2.1 _,
    _, rfl, c5_gradient_failure_contained.2.2 grapher0 mDense1 tdPlain "boom" _ rfl
      (by simp [mDense1]) rfl⟩

theorem length_bind_tw (pre : List KerasLayer) :
    (pre.flatMap (fun k => k.trainableWeights)).length = sumTW pre := by
  induction pre with
  | nil => rfl
  | cons k r ih => simp [List.flatMap_cons, sumTW_cons, twLen, ih]

theorem bind_tw_get (gradOf : Tensor → Tensor) (pre : List KerasLayer) (kl : KerasLayer)
    (rest : List KerasLayer) (htw : kl.trainableWeights ≠ []) :
    (((pre ++ kl :: rest).flatMap (fun k => k.trainableWeights)).map gradOf)[sumTW pre]? =
      some (gradOf (kl.trainableWeights.headD tensor0)) := by
  rw [List.flatMap_append, List.flatMap_cons, List.map_append]
  rw [List.getElem?_append_right
    (by simp only [List.length_map, length_bind_tw]; exact Nat.le_refl _)]
  simp only [List.length_map, length_bind_tw, Nat.sub_self]
  cases htwc : kl.trainableWeights with
  | nil => exact absurd htwc htw
  | cons t ts => simp [htwc]

theorem expectedDC_grads_aligned (gradOf : Tensor → Tensor) (full : List KerasLayer) :
    ∀ (rest pre : List KerasLayer), full = pre ++ rest →
      (∀ kl ∈ rest, isDCClass kl = true → kl.trainableWeights ≠ []) →
      (expectedDC (some ((full.flatMap (fun k => k.trainableWeights)).map gradOf))
          (sumTW pre) rest).map (fun t => t.2.2) =
        (rest.filter isDCClass).map
          (fun kl => some (gradOf (kl.trainableWeights.headD tensor0))) := by
  intro rest
  induction rest with
  | nil => intro pre _ _; rfl
  | cons kl rest ih =>
    intro pre hfull htw
    rw [expectedDC_cons, List.map_append]
    have hfull2 : full = (pre ++ [kl]) ++ rest := by rw [hfull]; simp
    have hih := ih (pre ++ [kl]) hfull2 (fun q hq hdc => htw q (by simp [hq]) hdc)
    have hsum : sumTW (pre ++ [kl]) = sumTW pre + twLen kl := by simp [sumTW]
    rw [hsum] at hih
    rw [hih]
    by_cases hdc : isDCClass kl = true
    · have htwkl : kl.trainableWeights ≠ [] := htw kl (by simp) hdc
      have hget : ((full.flatMap (fun k => k.trainableWeights)).map gradOf)[sumTW pre]? =
          some (gradOf (kl.trainableWeights.headD tensor0)) := by
        rw [hfull]
        exact bind_tw_get gradOf pre kl rest htwkl
      have hgf : gradField (some ((full.flatMap (fun k => k.trainableWeights)).map gradOf))
          (sumTW pre) = some (gradOf (kl.trainableWeights.headD tensor0)) := by
        have hne0 : ¬ (((full.flatMap (fun k => k.trainableWeights)).map gradOf).isEmpty
            = true) := by
          intro he
          rw [List.isEmpty_iff.mp he] at hget
          simp at hget
        simp only [gradField, if_neg hne0]
        exact hget
      simp [dcEntry, hdc, List.filter_cons, hgf]
    · simp [dcEntry, hdc, List.filter_cons]

/-- C10: the gradient cursor stays aligned with the layer walk: `idx_grads` is advanced by
the number of trainable weights of each visited layer, so across any run of the layer loop
the cursor equals its starting value plus the total count of trainable weights of the
visited layers; consequently, when the gradient list is the concatenation of the gradients
of the trainable weights of all layers (as produced by the gradient tape over
`model.trainable_variables`), the tensor `grads[idx_grads]` stored into each newly created
Dense or Convo2D layer is the gradient of the first trainable weight of that very layer. -/
theorem c10_gradient_cursor_alignment :
    (∀ (td : TestData) (grads : Option (List Tensor)) (kls : List KerasLayer)
        (st st2 : ExtractState),
      runLayers td grads st kls = Except.ok st2 →
      st2.idxGrads = st.idxGrads + sumTW kls) ∧
    (∀ (g : Grapher) (m : KerasModel) (td : TestData) (gradOf : Tensor → Tensor)
        (g2 : Grapher),
      m.isSequential = true → m.layers ≠ [] → td.hasTestSample = true →
      (∀ kl ∈ m.layers, isDCClass kl = true → kl.trainableWeights ≠ []) →
      process g m td
          (Except.ok ((m.layers.flatMap (fun k => k.trainableWeights)).map gradOf)) =
        Except.ok g2 →
      (dcLayers g2.layers).map (fun u => u.grads) =
        (m.layers.filter isDCClass).map
          (fun kl => some (gradOf (kl.trainableWeights.headD tensor0)))) := by
  constructor
  · intro td grads kls st st2 h
    exact (runLayers_spec td grads kls st st2 h).2
  · intro g m td gradOf g2 hseq hne htd htw hok
    have h := process_dcTriples g m td _ g2 hseq hne hok
    have hcg : compute_gradients td.hasTestSample
        (Except.ok ((m.layers.flatMap (fun k => k.trainableWeights)).map gradOf)) =
        some ((m.layers.flatMap (fun k => k.trainableWeights)).map gradOf) := by
      rw [htd]
      rfl
    rw [hcg] at h
    have hal := expectedDC_grads_aligned gradOf m.layers m.layers [] (by simp) htw
    have hz : sumTW ([] : List KerasLayer) = 0 := rfl
    rw [hz] at hal
    rw [dcLayers_map_grads, h, hal]

/-- Fixture: test data with a test sample available. -/
def tdSample : TestData :=
  { tdPlain with hasTestSample := true }

/-- Witness for C10: the cursor invariant and the gradient alignment at a concrete
one-Dense-layer model whose gradient list is the tape output over its trainable
variables. -/
theorem c10_witness :
    (∃ st2, runLayers tdPlain none
        { grapher := grapher0, idxGrads := 0, layerTrainingProps := [],
          layerInputProps := [] } [klDense1] = Except.ok st2 ∧
      st2.idxGrads = 0 + sumTW [klDense1]) ∧
    (∃ g2, process grapher0 mDense1 tdSample
        (Except.ok ((mDense1.layers.flatMap (fun k => k.trainableWeights)).map id)) =
        Except.ok g2 ∧
      (dcLayers g2.layers).map (fun u => u.grads) = [some tKernel]) := by
  constructor
  · refine ⟨_, rfl, ?_⟩
    exact c10_gradient_cursor_alignment.1 tdPlain none [klDense1] _ _ rfl
  · refine ⟨_, rfl, ?_⟩
    have h := c10_gradient_cursor_alignment.2 grapher0 mDense1 tdSample id _ rfl
      (by simp [mDense1]) rfl
      (by
        intro kl hkl hdc
        simp [mDense1] at hkl
        subst hkl
        simp [klDense1])
      rfl
    rw [h]
    rfl

theorem process_congr_grapher (ga gb : Grapher) (m : KerasModel) (td : TestData)
    (tape : Except String (List Tensor))
    (hth : ga.theme = gb.theme) (hmp : ga.modelProps = gb.modelProps)
    (hseq : m.isSequential = true) (hne : m.layers ≠ []) :
    process ga m td tape = process gb m td tape := by
  have hreset : Grapher.reset ga = Grapher.reset gb := by
    cases ga
    cases gb
    simp only [Grapher.reset] at hth hmp ⊢
    simp_all
  unfold process
  rw [if_pos hseq, if_pos hseq]
  cases hL : m.layers with
  | nil => exact absurd hL hne
  | cons kl0 rest =>
    dsimp only
    rw [hreset]

theorem load_model_ok (fs : String → Option KerasModel) (g : Grapher)
    (s : KerasModelSequence) (i : Nat) (tape : Except String (List Tensor))
    (r : KerasModelSequence × Grapher × Nat)
    (h : KerasModelSequence.load_model fs g s i tape = Except.ok r) :
    ∃ m gp, KerasModelSequence.load_keras_model fs s (Int.ofNat i) = Except.ok m ∧
      process (keras_set_model_properties g m) m s.testData tape = Except.ok gp ∧
      r = ({ s with currentModel := some m, currentEpochIndex := i }, gp, i) := by
  simp only [KerasModelSequence.load_model] at h
  rw [except_bind_ok_iff] at h
  obtain ⟨m, hm, h⟩ := h
  rw [except_bind_ok_iff] at h
  obtain ⟨gp, hp, h⟩ := h
  simp only [Except.ok.injEq] at h
  exact ⟨m, gp, hm, hp, h.symm⟩

/-- Counterexample to C2 as stated: loading an epoch whose checkpoint is a Sequential
model with zero layers returns normally but leaves the layer list of the grapher exactly as the
previously loaded model built it — `reset` is never reached, so a layer from a previously
loaded model remains after the call. -/
def c2fs : String → Option KerasModel :=
  fun p => if p = "p" then some mEmpty1 else none

theorem c2_counterexample :
    ((KerasModelSequence.load_model c2fs grapherStale seqOne 0 (Except.error "t")).map
      (fun r => r.2.1.layers)) = Except.ok grapherStale.layers ∧
    grapherStale.layers ≠ [] := by
  constructor
  · rfl
  · simp [grapherStale]

/-- C2 (amended): for every model index `i` whose model is a Sequential model with at
least one layer, `_load_model(grapher, i)` loads model `i` (storing it as the current
model and recording the epoch index) and rebuilds the layer list of the grapher solely from
the layers of model `i`: the resulting layer list is the same whatever layer list the grapher
held before the call, so no layer from a previously loaded model remains. -/
theorem c2_amended_rebuild (fs : String → Option KerasModel) (g1 g2 : Grapher)
    (s : KerasModelSequence) (i : Nat) (tape : Except String (List Tensor))
    (m : KerasModel) (r1 r2 : KerasModelSequence × Grapher × Nat)
    (hm : KerasModelSequence.load_keras_model fs s (Int.ofNat i) = Except.ok m)
    (hseq : m.isSequential = true) (hne : m.layers ≠ [])
    (hth : g1.theme = g2.theme)
    (h1 : KerasModelSequence.load_model fs g1 s i tape = Except.ok r1)
    (h2 : KerasModelSequence.load_model fs g2 s i tape = Except.ok r2) :
    r1.1.currentModel = some m ∧ r1.1.currentEpochIndex = i ∧ r1.2.2 = i ∧
    r1.2.1.layers = r2.2.1.layers := by
  obtain ⟨m1, gp1, hm1, hp1, hr1⟩ := load_model_ok fs g1 s i tape r1 h1
  obtain ⟨m2, gp2, hm2, hp2, hr2⟩ := load_model_ok fs g2 s i tape r2 h2
  rw [hm] at hm1 hm2
  have hm1m : m1 = m := by simpa using hm1.symm
  have hm2m : m2 = m := by simpa using hm2.symm
  rw [hm1m] at hp1 hr1
  rw [hm2m] at hp2 hr2
  have hpe : process (keras_set_model_properties g1 m) m s.testData tape =
      process (keras_set_model_properties g2 m) m s.testData tape :=
    process_congr_grapher _ _ m s.testData tape
      (by simp [keras_set_model_properties, hth])
      (by simp [keras_set_model_properties]) hseq hne
  rw [hpe, hp2] at hp1
  have hgp : gp1 = gp2 := by simpa using hp1.symm
  subst hgp
  rw [hr1, hr2]
  exact ⟨rfl, rfl, rfl, rfl⟩

/-- Witness for the amended C2: the same non-empty model loaded over a stale grapher and
over an empty grapher yields the same rebuilt layer list. -/
theorem c2_amended_witness :
    ∃ r1 r2,
      KerasModelSequence.load_model fsOne grapherStale seqOne 0 (Except.error "t") =
        Except.ok r1 ∧
      KerasModelSequence.load_model fsOne grapher0 seqOne 0 (Except.error "t") =
        Except.ok r2 ∧
      r1.1.currentModel = some mDense1 ∧ r1.1.currentEpochIndex = 0 ∧ r1.2.2 = 0 ∧
      r1.2.1.layers = r2.2.1.layers := by
  refine ⟨_, _, rfl, rfl, ?_⟩
  exact c2_amended_rebuild fsOne grapherStale grapher0 seqOne 0 (Except.error "t")
    mDense1 _ _ rfl rfl (by simp [mDense1]) rfl rfl rfl

/-- C6 as coded, evaluated at a failing input: directory `d` contains one file, named
`-_5x` (so its path is `d` slash `-_5x`), which matches the checkpoint glob
`*_[0-9]*` under `d` but not the extraction regex `(\w+)_([0-9]+)`, so `.group(1)` raises
`AttributeError`; the `except` handler then calls `traceback.format_exc(e)` with the
caught exception as the `limit` argument, which raises `TypeError` — the exception
propagates instead of the collected-so-far sorted list being returned. -/
theorem c6_list_models_handler_raises :
    KerasModelSequence.list_models ["d/-_5x"] ["d"] "" "_" "" =
      Except.error PyErr.typeError := rfl

/-- Epoch number encoded in a canonical checkpoint path `pre ++ digits ++ suf`, as parsed
by `int()` on the regex capture. -/
def epochOf (pre : List Char) (p : String) : Nat :=
  ((p.data.drop pre.length).takeWhile Char.isDigit).foldl
    (fun acc c => acc * 10 + (c.toNat - 48)) 0

theorem takeWhile_digits_append (ds suf : List Char) (hdig : ds.all Char.isDigit = true)
    (hsuf : ∀ c cs, suf = c :: cs → c.isDigit = false) :
    (ds ++ suf).takeWhile Char.isDigit = ds := by
  induction ds with
  | nil =>
    cases hs : suf with
    | nil => simp
    | cons c cs => simp [List.takeWhile_cons, hsuf c cs hs]
  | cons d ds ih =>
    simp only [List.all_cons, Bool.and_eq_true] at hdig
    simp [List.takeWhile_cons, hdig.1, ih hdig.2]

theorem matchDigitsAt_canonical (pre ds suf : List Char)
    (_hne : ds ≠ []) (hdig : ds.all Char.isDigit = true)
    (hsuf : ∀ c cs, suf = c :: cs → c.isDigit = false) :
    matchDigitsAt pre suf (pre ++ ds ++ suf) = some ds := by
  unfold matchDigitsAt
  have hpre : pre.isPrefixOf (pre ++ ds ++ suf) = true := by
    rw [ List.isPrefixOf_iff_prefix, List.append_assoc]
    exact List.prefix_append pre (ds ++ suf)
  rw [if_pos hpre]
  dsimp only
  have hrest : (pre ++ ds ++ suf).drop pre.length = ds ++ suf := by
    rw [List.append_assoc]
    exact List.drop_left pre (ds ++ suf)
  rw [hrest, takeWhile_digits_append ds suf hdig hsuf]
  have hrev : (List.range (ds.length + 1)).reverse =
      ds.length :: (List.range ds.length).reverse := by
    rw [List.range_succ, List.reverse_append]
    rfl
  have hpred : suf.isPrefixOf ((ds ++ suf).drop ds.length) = true := by
    rw [List.drop_left ds suf, List.isPrefixOf_iff_prefix]
  have hfind : List.find? (fun k => suf.isPrefixOf (List.drop k (ds ++ suf)))
      (ds.length :: (List.range ds.length).reverse) = some ds.length :=
    List.find?_cons_of_pos _ hpred
  rw [hrev, hfind]
  have htake : (ds ++ suf).take ds.length = ds := List.take_left ds suf
  simp [htake]

theorem reSearchDigits_canonical (pre ds suf : List Char)
    (hne : ds ≠ []) (hdig : ds.all Char.isDigit = true)
    (hsuf : ∀ c cs, suf = c :: cs → c.isDigit = false) :
    reSearchDigits pre suf (pre ++ ds ++ suf) = some ds := by
  unfold reSearchDigits
  rw [List.range_succ_eq_map, List.findSome?_cons, List.drop_zero,
    matchDigitsAt_canonical pre ds suf hne hdig hsuf]

theorem epochOf_canonical (pre ds suf : List Char) (p : String)
    (hdata : p.data = pre ++ ds ++ suf) (hdig : ds.all Char.isDigit = true)
    (hsuf : ∀ c cs, suf = c :: cs → c.isDigit = false) :
    epochOf pre p = ds.foldl (fun acc c => acc * 10 + (c.toNat - 48)) 0 := by
  unfold epochOf
  rw [hdata, List.append_assoc, List.drop_left, takeWhile_digits_append ds suf hdig hsuf]

theorem checkpointStep_canonical (pre suf : List Char) (d : List (Nat × String))
    (p : String) (hsuf : ∀ c cs, suf = c :: cs → c.isDigit = false)
    (hp : ∃ ds, p.data = pre ++ ds ++ suf ∧ ds ≠ [] ∧ ds.all Char.isDigit = true) :
    checkpointStep pre suf d p = Except.ok (dictSet d (epochOf pre p) p) := by
  obtain ⟨ds, hdata, hne, hdig⟩ := hp
  unfold checkpointStep
  rw [hdata, reSearchDigits_canonical pre ds suf hne hdig hsuf]
  have hint : pyInt ds = Except.ok (ds.foldl (fun acc c => acc * 10 + (c.toNat - 48)) 0) := by
    unfold pyInt
    rw [if_pos]
    simp [List.isEmpty_iff, hne, hdig]
  rw [except_ok_bind, hint, except_ok_bind,
    ← epochOf_canonical pre ds suf p hdata hdig hsuf]

theorem foldlM_checkpointStep (pre suf : List Char)
    (hsuf : ∀ c cs, suf = c :: cs → c.isDigit = false) :
    ∀ (L : List String) (acc : List (Nat × String)),
      (∀ p ∈ L, ∃ ds, p.data = pre ++ ds ++ suf ∧ ds ≠ [] ∧ ds.all Char.isDigit = true) →
      (acc.map Prod.fst ++ L.map (epochOf pre)).Nodup →
      L.foldlM (checkpointStep pre suf) acc =
        Except.ok (acc ++ L.map (fun p => (epochOf pre p, p))) := by
  intro L
  induction L with
  | nil =>
    intro acc _ _
    simp only [List.foldlM_nil, List.map_nil, List.append_nil]
    rfl
  | cons p L ih =>
    intro acc hcanon hnodup
    rw [List.foldlM_cons,
      checkpointStep_canonical pre suf acc p hsuf (hcanon p (by simp)), except_ok_bind]
    have hfresh : epochOf pre p ∉ acc.map Prod.fst := by
      rcases List.nodup_append.mp hnodup with ⟨-, -, hdisj⟩
      intro hmem
      exact hdisj hmem (by simp)
    have hset : dictSet acc (epochOf pre p) p = acc ++ [(epochOf pre p, p)] := by
      unfold dictSet
      rw [if_neg]
      intro hany
      rw [List.any_eq_true] at hany
      obtain ⟨kv, hkv, heq⟩ := hany
      rw [decide_eq_true_eq] at heq
      exact hfresh (heq ▸ List.mem_map_of_mem Prod.fst hkv)
    rw [hset]
    have hnodup2 : ((acc ++ [(epochOf pre p, p)]).map Prod.fst ++
        L.map (epochOf pre)).Nodup := by
      simpa [List.append_assoc] using hnodup
    rw [ih (acc ++ [(epochOf pre p, p)]) (fun q hq => hcanon q (by simp [hq])) hnodup2]
    simp

theorem lookup_pairs (pre : List Char) :
    ∀ (M : List String), (M.map (epochOf pre)).Nodup →
      ∀ p ∈ M,
        List.lookup (epochOf pre p) (M.map (fun q => (epochOf pre q, q))) = some p := by
  intro M
  induction M with
  | nil =>
    intro _ p hp
    simp at hp
  | cons q M ih =>
    intro hnodup p hp
    rcases List.mem_cons.mp hp with hpq | hpM
    · subst hpq
      simp [List.lookup_cons]
    · have hne : epochOf pre p ≠ epochOf pre q := by
        intro he
        have hmem : epochOf pre q ∈ M.map (epochOf pre) :=
          he ▸ List.mem_map_of_mem (epochOf pre) hpM
        exact (List.nodup_cons.mp (by simpa using hnodup)).1 hmem
      rw [List.map_cons, List.lookup_cons]
      have hbeq : (epochOf pre p == epochOf pre q) = false := by
        simpa using hne
      rw [hbeq]
      exact ih (List.nodup_cons.mp (by simpa using hnodup)).2 p hpM

theorem mapM_checkpoint_lookup (cps : List (Nat × String)) :
    ∀ (es : List Nat), (∀ e ∈ es, (List.lookup e cps).isSome = true) →
      es.mapM (fun e =>
          match List.lookup e cps with
          | some p => Except.ok p
          | none => Except.error (PyErr.keyError "epoch")) =
        Except.ok (es.map (fun e => (List.lookup e cps).getD "")) := by
  intro es
  induction es with
  | nil => intro _; rfl
  | cons e es ih =>
    intro h
    have he := h e (by simp)
    cases hl : List.lookup e cps with
    | none => rw [hl] at he; simp at he
    | some p =>
      rw [List.mapM_cons, ih (fun q hq => h q (by simp [hq])), hl]
      simp [hl, except_ok_bind]

/-- C3: for every directory pattern containing the `{epoch}` tag — written
`pre ++ "{epoch}" ++ suf` — `load_sequence(dir_path)` collects the checkpoint files
matching the pattern with `{epoch}` replaced by digits, extracts the integer
epoch by regex, stores `model_paths` ordered by ascending epoch number, and sets
`number_epochs` equal to the number of matched checkpoints.  Hypotheses: each matching
file decomposes canonically as `pre ++ digits ++ suf`, the suffix does not begin with a
digit (so the greedy capture is exactly the digit run), and distinct matched checkpoints
carry distinct epoch numbers. -/
theorem c3_load_sequence (fs : List String) (s : KerasModelSequence) (pre suf : List Char)
    (hsuf : ∀ c cs, suf = c :: cs → c.isDigit = false)
    (hcanon : ∀ p ∈ checkpointGlobMatches fs pre suf,
      ∃ ds, p.data = pre ++ ds ++ suf ∧ ds ≠ [] ∧ ds.all Char.isDigit = true)
    (hinj : ((checkpointGlobMatches fs pre suf).map (epochOf pre)).Nodup) :
    ∃ s2, KerasModelSequence.load_sequence fs s pre suf = Except.ok s2 ∧
      s2.modelPaths.Perm (checkpointGlobMatches fs pre suf) ∧
      List.Sorted (fun a b => a < b) (s2.modelPaths.map (epochOf pre)) ∧
      s2.numberEpochs = (checkpointGlobMatches fs pre suf).length := by
  have hbc : buildCheckpoints pre suf (checkpointGlobMatches fs pre suf) =
      Except.ok ((checkpointGlobMatches fs pre suf).map
        (fun p => (epochOf pre p, p))) := by
    unfold buildCheckpoints
    have hstep := foldlM_checkpointStep pre suf hsuf (checkpointGlobMatches fs pre suf)
      [] hcanon (by simpa using hinj)
    simpa using hstep
  have hkeys : ((checkpointGlobMatches fs pre suf).map
      (fun p => (epochOf pre p, p))).map Prod.fst =
      (checkpointGlobMatches fs pre suf).map (epochOf pre) := by
    rw [List.map_map]
    rfl
  have hfE : ∀ p ∈ checkpointGlobMatches fs pre suf,
      (List.lookup (epochOf pre p) ((checkpointGlobMatches fs pre suf).map
        (fun q => (epochOf pre q, q)))).getD "" = p := by
    intro p hp
    rw [lookup_pairs pre (checkpointGlobMatches fs pre suf) hinj p hp]
    rfl
  have hperm : (List.insertionSort (fun a b => a ≤ b)
      ((checkpointGlobMatches fs pre suf).map (epochOf pre))).Perm
      ((checkpointGlobMatches fs pre suf).map (epochOf pre)) :=
    List.perm_insertionSort _ _
  have hlookupAll : ∀ e ∈ List.insertionSort (fun a b => a ≤ b)
      ((checkpointGlobMatches fs pre suf).map (epochOf pre)),
      (List.lookup e ((checkpointGlobMatches fs pre suf).map
        (fun q => (epochOf pre q, q)))).isSome = true := by
    intro e he
    have heE := hperm.mem_iff.mp he
    obtain ⟨p, hpM, hpe⟩ := List.mem_map.mp heE
    rw [← hpe, lookup_pairs pre (checkpointGlobMatches fs pre suf) hinj p hpM]
    rfl
  have hmapM := mapM_checkpoint_lookup
    ((checkpointGlobMatches fs pre suf).map (fun q => (epochOf pre q, q)))
    (List.insertionSort (fun a b => a ≤ b)
      ((checkpointGlobMatches fs pre suf).map (epochOf pre))) hlookupAll
  unfold KerasModelSequence.load_sequence
  dsimp only
  rw [hbc, except_ok_bind, hkeys, hmapM, except_ok_bind]
  refine ⟨_, rfl, ?_, ?_, ?_⟩
  · have h1 := hperm.map (fun e => (List.lookup e
      ((checkpointGlobMatches fs pre suf).map (fun q => (epochOf pre q, q)))).getD "")
    refine h1.trans ?_
    rw [List.map_map]
    have h2 : ∀ p ∈ checkpointGlobMatches fs pre suf,
        ((fun e => (List.lookup e ((checkpointGlobMatches fs pre suf).map
          (fun q => (epochOf pre q, q)))).getD "") ∘ epochOf pre) p = id p := by
      intro p hp
      exact hfE p hp
    rw [List.map_congr_left h2, List.map_id]
  · have hback : ∀ e ∈ List.insertionSort (fun a b => a ≤ b)
        ((checkpointGlobMatches fs pre suf).map (epochOf pre)),
        epochOf pre ((List.lookup e ((checkpointGlobMatches fs pre suf).map
          (fun q => (epochOf pre q, q)))).getD "") = e := by
      intro e he
      have heE := hperm.mem_iff.mp he
      obtain ⟨p, hpM, hpe⟩ := List.mem_map.mp heE
      rw [← hpe, hfE p hpM]
    rw [List.map_map]
    have heq : List.map (epochOf pre ∘ fun e =>
          (List.lookup e ((checkpointGlobMatches fs pre suf).map
            (fun q => (epochOf pre q, q)))).getD "")
        (List.insertionSort (fun a b => a ≤ b)
          ((checkpointGlobMatches fs pre suf).map (epochOf pre))) =
        List.map id (List.insertionSort (fun a b => a ≤ b)
          ((checkpointGlobMatches fs pre suf).map (epochOf pre))) :=
      List.map_congr_left (fun e he => hback e he)
    rw [heq, List.map_id]
    have hsortedLe := List.sorted_insertionSort (fun a b => a ≤ b)
      ((checkpointGlobMatches fs pre suf).map (epochOf pre))
    have hnodup : (List.insertionSort (fun a b => a ≤ b)
        ((checkpointGlobMatches fs pre suf).map (epochOf pre))).Nodup :=
      hperm.symm.nodup hinj
    exact List.Sorted.lt_of_le hsortedLe hnodup
  · rw [List.length_map, hperm.length_eq, List.length_map]

/-- Witness for C3 at the pattern `m{epoch}` over the files `m12` and `m3`: the load
succeeds, keeps both checkpoints, and orders them `m3` before `m12`. -/
theorem c3_witness :
    ∃ s2, KerasModelSequence.load_sequence ["m12", "m3"] seqEpoch0 "m".data [] =
        Except.ok s2 ∧
      s2.modelPaths.Perm (checkpointGlobMatches ["m12", "m3"] "m".data []) ∧
      List.Sorted (fun a b => a < b) (s2.modelPaths.map (epochOf "m".data)) ∧
      s2.numberEpochs = (checkpointGlobMatches ["m12", "m3"] "m".data []).length := by
  refine c3_load_sequence ["m12", "m3"] seqEpoch0 "m".data [] ?_ ?_ ?_
  · intro c cs h
    simp at h
  · have hM : checkpointGlobMatches ["m12", "m3"] "m".data [] = ["m12", "m3"] := rfl
    rw [hM]
    intro p hp
    rcases List.mem_cons.mp hp with h | h
    · subst h
      exact ⟨['1', '2'], rfl, by simp, rfl⟩
    · rcases List.mem_cons.mp h with h2 | h2
      · subst h2
        exact ⟨['3'], rfl, by simp, rfl⟩
      · simp at h2
  · have hM : (checkpointGlobMatches ["m12", "m3"] "m".data []).map
        (epochOf "m".data) = [12, 3] := rfl
    rw [hM]
    decide

end DnnViewer
